import Mathlib

/-!
# Cart page (`src/pages/Cart.js`): checkout, displayed total, removing a line

A shallow embedding of the `Cart` component's handlers.

* JavaScript numbers are IEEE 754 binary64 values.  A finite number is stored as a sign and a
  natural number `k` of *units*, one unit being `2 ^ (-1074)` (the smallest positive double), so
  `fin neg k` denotes `(-1) ^ neg * k * 2 ^ (-1074)`.  Every finite double is a whole number of
  units, hence sums are exact natural-number sums followed by one rounding, and products are
  exact ratios followed by one rounding (round to nearest, ties to even).
* `parseFloat` follows ECMAScript: `ToString`, strip leading white space, longest prefix that
  is a `StrDecimalLiteral`, rounded to the nearest double.
* The handlers are written in a small exception-and-state monad `Prog`: the state holds the two
  React state cells and the chronological list of observable effects (alerts, console output,
  HTTP requests, state setters, navigation).
-/

set_option exponentiation.threshold 5000

namespace Cart

/-! ## JavaScript numbers -/

/-- A JavaScript Number: `fin neg k` is `(-1) ^ neg * k * 2 ^ (-1074)`; `fin false 0` is `+0`
and `fin true 0` is `-0`. -/
inductive JSNumber where
  | nan
  | inf (neg : Bool)
  | fin (neg : Bool) (k : Nat)
  deriving DecidableEq, Repr

/-- Floor of the binary logarithm (`0` at `0`), by halving; the first argument bounds the
number of halvings. -/
def log2Fuel : Nat → Nat → Nat
  | 0, _ => 0
  | f + 1, n => if n < 2 then 0 else log2Fuel f (n / 2) + 1

/-- Round the positive ratio `num / den` (counted in units of `2 ^ (-1074)`) to the nearest
value with a 53-bit significand, ties to even.  Below `2 ^ 53` units the spacing is one unit
(subnormals and the first binade); above, it is `2 ^ s` units with `s = ⌊log₂⌋ - 52`. -/
def roundUnits (num den : Nat) : Nat :=
  let s := log2Fuel (num / den) (num / den) - 52
  let d := den * 2 ^ s
  let q := num / d
  let r := num % d
  let q1 := if 2 * r < d then q else if d < 2 * r then q + 1 else if q % 2 = 0 then q else q + 1
  q1 * 2 ^ s

/-- A rounded magnitude as a Number: magnitudes from `2 ^ 1024` (that is `2 ^ 2098` units)
overflow to infinity. -/
def ofUnits (neg : Bool) (k : Nat) : JSNumber :=
  if 2 ^ 2098 ≤ k then JSNumber.inf neg else JSNumber.fin neg k

namespace JSNumber

/-- The Number whose value is the natural number `n` (exact for `n < 2 ^ 53`). -/
def ofNat (n : Nat) : JSNumber := fin false (n * 2 ^ 1074)

/-- Number addition, the `+` of two Numbers. -/
def add : JSNumber → JSNumber → JSNumber
  | nan, _ => nan
  | _, nan => nan
  | inf a, inf b => if a = b then inf a else nan
  | inf a, fin _ _ => inf a
  | fin _ _, inf b => inf b
  | fin a j, fin b k =>
    if a = b then ofUnits a (roundUnits (j + k) 1)
    else if k < j then ofUnits a (roundUnits (j - k) 1)
    else if j < k then ofUnits b (roundUnits (k - j) 1)
    else fin false 0

/-- Number multiplication, the `*` of two Numbers. -/
def mul : JSNumber → JSNumber → JSNumber
  | nan, _ => nan
  | _, nan => nan
  | inf a, inf b => inf (xor a b)
  | inf a, fin b k => if k = 0 then nan else inf (xor a b)
  | fin a j, inf b => if j = 0 then nan else inf (xor a b)
  | fin a j, fin b k => ofUnits (xor a b) (roundUnits (j * k) (2 ^ 1074))

end JSNumber

/-! ## `parseFloat` -/

/-- White space and line terminators stripped from the front by `parseFloat`. -/
def isStrWhiteSpaceChar (c : Char) : Bool :=
  let n := c.toNat
  n = 0x9 || n = 0xA || n = 0xB || n = 0xC || n = 0xD || n = 0x20 || n = 0xA0 || n = 0x1680
    || (0x2000 ≤ n && n ≤ 0x200A) || n = 0x2028 || n = 0x2029 || n = 0x202F || n = 0x205F
    || n = 0x3000 || n = 0xFEFF

/-- Decimal digit `0`..`9`. -/
def isDecimalDigit (c : Char) : Bool := 48 ≤ c.toNat && c.toNat ≤ 57

/-- Value of a run of decimal digits. -/
def digitsValue (ds : List Char) : Nat := ds.foldl (fun acc c => 10 * acc + (c.toNat - 48)) 0

/-- The digits of a `SignedInteger` at the front of `cs`, with its sign; `none` when there is
no digit. -/
def signedInteger (cs : List Char) : Option Int :=
  let body (neg : Bool) (ds : List Char) : Option Int :=
    let d := ds.takeWhile isDecimalDigit
    if d.isEmpty then none
    else some (if neg then - (digitsValue d : Int) else (digitsValue d : Int))
  match cs with
  | [] => none
  | c :: rest =>
    if c.toNat = 43 then body false rest
    else if c.toNat = 45 then body true rest
    else body false cs

/-- The exponent of an optional `ExponentPart` at the front of `cs`: `e` or `E` followed by a
signed integer; an incomplete exponent part does not belong to the literal and counts `0`. -/
def exponentPart (cs : List Char) : Int :=
  match cs with
  | [] => 0
  | c :: rest =>
    if c.toNat = 101 ∨ c.toNat = 69 then (signedInteger rest).getD 0 else 0

/-- The Number for the mathematical value `digits * 10 ^ (e - fracLen)`. -/
def roundMV (neg : Bool) (digits : Nat) (fracLen : Nat) (e : Int) : JSNumber :=
  let t : Int := e - fracLen
  if 0 ≤ t then ofUnits neg (roundUnits (digits * 10 ^ t.toNat * 2 ^ 1074) 1)
  else ofUnits neg (roundUnits (digits * 2 ^ 1074) (10 ^ (-t).toNat))

/-- The longest prefix of `cs` that is a `StrUnsignedDecimalLiteral`, as a Number of sign
`neg`; `NaN` when no prefix is one. -/
def strUnsignedDecimalLiteral (neg : Bool) (cs : List Char) : JSNumber :=
  if "Infinity".toList.isPrefixOf cs then JSNumber.inf neg
  else
    let ip := cs.takeWhile isDecimalDigit
    let r1 := cs.dropWhile isDecimalDigit
    match r1 with
    | [] => if ip.isEmpty then JSNumber.nan else roundMV neg (digitsValue ip) 0 0
    | c :: r2 =>
      if c.toNat = 46 then
        let fp := r2.takeWhile isDecimalDigit
        let r3 := r2.dropWhile isDecimalDigit
        if ip.isEmpty && fp.isEmpty then JSNumber.nan
        else roundMV neg (digitsValue (ip ++ fp)) fp.length (exponentPart r3)
      else if ip.isEmpty then JSNumber.nan
      else roundMV neg (digitsValue ip) 0 (exponentPart r1)

/-- The global `parseFloat` on a string. -/
def parseFloatString (s : String) : JSNumber :=
  match s.toList.dropWhile isStrWhiteSpaceChar with
  | [] => JSNumber.nan
  | c :: rest =>
    if c.toNat = 43 then strUnsignedDecimalLiteral false rest
    else if c.toNat = 45 then strUnsignedDecimalLiteral true rest
    else strUnsignedDecimalLiteral false (c :: rest)

/-! ## JavaScript values -/

/-- The JSON scalar values a cart row or a response field can hold. -/
inductive JSVal where
  | undefined
  | null
  | bool (b : Bool)
  | num (x : JSNumber)
  | str (s : String)
  deriving DecidableEq, Repr

namespace JSVal

/-- The abstract operation `ToBoolean`: `undefined`, `null`, `false`, `NaN`, `+0`, `-0` and the
empty string are falsy. -/
def toBoolean : JSVal → Bool
  | undefined => false
  | null => false
  | bool b => b
  | num JSNumber.nan => false
  | num (JSNumber.inf _) => true
  | num (JSNumber.fin _ k) => decide (k ≠ 0)
  | str s => decide (s ≠ "")

/-- The operator `a || b`: `a` when it is truthy, else `b`. -/
def or (a b : JSVal) : JSVal := if a.toBoolean then a else b

/-- The abstract operation `ToString`, given `Number::toString`. -/
def toStr (numberToString : JSNumber → String) : JSVal → String
  | undefined => "undefined"
  | null => "null"
  | bool true => "true"
  | bool false => "false"
  | num x => numberToString x
  | str s => s

/-- Strict equality `a === b`: `NaN` differs from itself, `+0` equals `-0`. -/
def strictEq : JSVal → JSVal → Bool
  | undefined, undefined => true
  | null, null => true
  | bool a, bool b => a == b
  | num (JSNumber.inf a), num (JSNumber.inf b) => a == b
  | num (JSNumber.fin a j), num (JSNumber.fin b k) => j == k && (j == 0 || a == b)
  | str a, str b => a == b
  | _, _ => false

end JSVal

/-- The language and browser primitives the page calls that are not part of the repository. -/
structure Host where
  /-- `Number::toString`, used by `parseFloat` on a Number and by template literals. -/
  numberToString : JSNumber → String
  /-- `Number.prototype.toLocaleString`. -/
  toLocaleString : JSNumber → String
  /-- `localStorage.getItem("token")`: `none` is `null`. -/
  token : Option String

/-- The global `parseFloat`: `ToString` of the argument, then the string parse. -/
def parseFloat (h : Host) (v : JSVal) : JSNumber :=
  parseFloatString (v.toStr h.numberToString)

/-! ## Cart rows, requests, effects -/

/-- One row of `response.data.cart`.  `Quantity` is used as a Number without conversion, and
`Price` is passed through `parseFloat`. -/
structure CartItem where
  CartID : JSVal
  ProductID : JSVal
  ProductName : JSVal
  Price : JSVal
  CustomerID : JSVal
  Quantity : JSNumber
  deriving DecidableEq, Repr

/-- A plain object literal: its properties in source order. -/
abbrev JSObject := List (String × JSVal)

/-- HTTP method of a request. -/
inductive Method where
  | GET
  | POST
  | DELETE
  deriving DecidableEq, Repr

/-- A request handed to axios. -/
structure Request where
  method : Method
  url : String
  authorization : String
  body : Option JSObject
  deriving DecidableEq, Repr

/-- What a rejected request or a failed property read throws. -/
inductive JSError where
  | transport (info : String)
  | typeError (info : String)
  deriving DecidableEq, Repr

/-- The members of `response.data` that the page reads. -/
structure ResponseData where
  status : JSVal
  OrderID : JSVal
  deriving DecidableEq, Repr

/-- How an awaited request ends: the promise resolves with a response whose `data` is an
object (`some`) or `null` (`none`), or it rejects. -/
inductive HttpOutcome where
  | resolved (data : Option ResponseData)
  | rejected (err : JSError)
  deriving DecidableEq, Repr

/-- The remote API: the outcome of a request, given the requests sent before it. -/
abbrev Net := List Request → Request → HttpOutcome

/-- An argument of `console.log` or `console.error`. -/
inductive LogArg where
  | text (s : String)
  | data (d : ResponseData)
  | error (e : JSError)
  deriving DecidableEq, Repr

/-- An observable effect of a handler. -/
inductive Effect where
  | alert (msg : String)
  | consoleLog (args : List LogArg)
  | consoleError (args : List LogArg)
  | request (r : Request)
  | setCartItems (items : List CartItem)
  | setError (msg : String)
  | navigate (path : String)
  deriving DecidableEq, Repr

/-- The component state and the effects performed so far, oldest first. -/
structure World where
  cartItems : List CartItem
  error : String
  trace : List Effect
  deriving DecidableEq, Repr

/-- The requests among a list of effects, oldest first. -/
def requestsOf (t : List Effect) : List Request :=
  t.filterMap fun e => match e with
    | Effect.request r => some r
    | _ => none

/-! ## Handlers as programs -/

/-- How a statement ends: normally with a value, or abruptly by throwing. -/
inductive Completion (α : Type) where
  | normal (a : α)
  | throw (e : JSError)
  deriving DecidableEq, Repr

/-- A program: from the world before to its completion and the world after. -/
def Prog (α : Type) : Type := World → Completion α × World

namespace Prog

/-- The program that returns `a` and does nothing. -/
def ret {α : Type} (a : α) : Prog α := fun w => (Completion.normal a, w)

/-- Sequencing: a throw of the first program skips the second and keeps the effects made. -/
def andThen {α β : Type} (x : Prog α) (f : α → Prog β) : Prog β := fun w =>
  match x w with
  | (Completion.normal a, w1) => f a w1
  | (Completion.throw e, w1) => (Completion.throw e, w1)

/-- The statement `try { body } catch (err) { handler }`. -/
def tryCatch {α : Type} (body : Prog α) (handler : JSError → Prog α) : Prog α := fun w =>
  match body w with
  | (Completion.normal a, w1) => (Completion.normal a, w1)
  | (Completion.throw e, w1) => handler e w1

/-- The statement `throw e`. -/
def raise {α : Type} (e : JSError) : Prog α := fun w => (Completion.throw e, w)

/-- Perform one effect. -/
def emit (e : Effect) : Prog Unit := fun w =>
  (Completion.normal (), { w with trace := w.trace ++ [e] })

end Prog

instance : Monad Prog where
  pure := Prog.ret
  bind := Prog.andThen

/-- The call `alert(msg)`. -/
def alert (msg : String) : Prog Unit := Prog.emit (Effect.alert msg)

/-- The call `console.log(...args)`. -/
def consoleLog (args : List LogArg) : Prog Unit := Prog.emit (Effect.consoleLog args)

/-- The call `console.error(...args)`. -/
def consoleError (args : List LogArg) : Prog Unit := Prog.emit (Effect.consoleError args)

/-- The call `navigate(path)`. -/
def navigate (path : String) : Prog Unit := Prog.emit (Effect.navigate path)

/-- The state setter `setCartItems(items)`. -/
def setCartItems (items : List CartItem) : Prog Unit := fun w =>
  (Completion.normal (), { w with cartItems := items, trace := w.trace ++ [Effect.setCartItems items] })

/-- The state setter `setError(msg)`. -/
def setError (msg : String) : Prog Unit := fun w =>
  (Completion.normal (), { w with error := msg, trace := w.trace ++ [Effect.setError msg] })

/-- The header object of every request: a bearer token built by a template literal. -/
def bearer (h : Host) : String :=
  "Bearer " ++ (match h.token with
    | some t => t
    | none => "null")

/-- Send `r` and await it: the request is recorded, then the promise resolves with the
response data or rejects, which throws at the `await`. -/
def axiosSend (net : Net) (r : Request) : Prog (Option ResponseData) := fun w =>
  match net (requestsOf w.trace) r with
  | HttpOutcome.resolved d =>
    (Completion.normal d, { w with trace := w.trace ++ [Effect.request r] })
  | HttpOutcome.rejected e =>
    (Completion.throw e, { w with trace := w.trace ++ [Effect.request r] })

/-- The call `axios.post(url, data, { headers })`. -/
def axiosPost (h : Host) (net : Net) (url : String) (data : JSObject) :
    Prog (Option ResponseData) :=
  axiosSend net { method := Method.POST, url := url, authorization := bearer h, body := some data }

/-- The call `axios.delete(url, { headers })`. -/
def axiosDelete (h : Host) (net : Net) (url : String) : Prog (Option ResponseData) :=
  axiosSend net { method := Method.DELETE, url := url, authorization := bearer h, body := none }

/-- Reading a member of `response.data`: a `TypeError` when `data` is `null`. -/
def dataOf (d : Option ResponseData) : Prog ResponseData :=
  match d with
  | some r => Prog.ret r
  | none => Prog.raise (JSError.typeError "Cannot read properties of null")

/-- The constant `totalAmount` of `handleCheckout` (line 79). -/
def totalAmount (h : Host) (cartItems : List CartItem) : JSNumber :=
  cartItems.foldl
    (fun total item => JSNumber.add total (JSNumber.mul (parseFloat h item.Price) item.Quantity))
    (JSNumber.fin false 0)

/-- The constant `customerID` of `handleCheckout` (line 80). -/
def customerID (cartItems : List CartItem) : JSVal :=
  JSVal.or
    (match cartItems.head? with
      | some item => item.CustomerID
      | none => JSVal.undefined)
    (JSVal.num (JSNumber.ofNat 1))

/-- The object `orderData` of `handleCheckout` (lines 82-86). -/
def orderData (h : Host) (cartItems : List CartItem) : JSObject :=
  [("CustomerID", customerID cartItems),
   ("TotalPrice", JSVal.num (totalAmount h cartItems)),
   ("Status", JSVal.str "Pending")]

/-- The handler `handleCheckout` (lines 73-115); `cartItems` is the state of the render that
made the handler. -/
def handleCheckout (h : Host) (net : Net) : Prog Unit := fun w =>
  let cartItems := w.cartItems
  if cartItems.length = 0 then
    alert "❌ Your cart is empty!" w
  else
    Prog.tryCatch
      (do
        let orderResponse ← axiosPost h net "http://localhost:5000/api/orders" (orderData h cartItems)
        let orderResult ← dataOf orderResponse
        if orderResult.status = JSVal.str "success" then do
          consoleLog [LogArg.text "✅ Order created successfully:", LogArg.data orderResult]
          let deleteResponse ← axiosDelete h net "http://localhost:5000/api/cart"
          let deleteResult ← dataOf deleteResponse
          if deleteResult.status = JSVal.str "success" then do
            consoleLog [LogArg.text "Cart cleared successfully"]
            setCartItems []
            alert ("✅ Order placed successfully! Order ID: "
              ++ orderResult.OrderID.toStr h.numberToString)
            navigate ("/orders?id=" ++ orderResult.OrderID.toStr h.numberToString)
          else
            alert "❌ Failed to clear cart items."
        else
          alert "❌ Failed to create order.")
      (fun err => do
        consoleError [LogArg.text "❌ Checkout Error:", LogArg.error err]
        setError "❌ Error during checkout.")
      w

/-- The function `getTotalPrice` (lines 117-119), the total shown under the table. -/
def getTotalPrice (h : Host) (cartItems : List CartItem) : String :=
  h.toLocaleString
    (cartItems.foldl
      (fun total item => JSNumber.add total (JSNumber.mul (parseFloat h item.Price) item.Quantity))
      (JSNumber.fin false 0))

/-- The request that the `axios.post` call of lines 89-91 sends. -/
def postOrders (h : Host) (cartItems : List CartItem) : Request :=
  { method := Method.POST, url := "http://localhost:5000/api/orders", authorization := bearer h,
    body := some (orderData h cartItems) }

/-- The request that the `axios.delete` call of lines 96-98 sends. -/
def deleteCart (h : Host) : Request :=
  { method := Method.DELETE, url := "http://localhost:5000/api/cart", authorization := bearer h,
    body := none }

/-- The effects that running `p` from `w` adds to the trace, oldest first. -/
def effectsOf (p : Prog Unit) (w : World) : List Effect := (p w).2.trace.drop w.trace.length

/-- The outcome of the order request of a checkout started in `w`. -/
def orderOutcome (h : Host) (net : Net) (w : World) : HttpOutcome :=
  net (requestsOf w.trace) (postOrders h w.cartItems)

/-- The outcome of the cart-clear request of a checkout started in `w`, sent after the order
request. -/
def clearOutcome (h : Host) (net : Net) (w : World) : HttpOutcome :=
  net (requestsOf w.trace ++ [postOrders h w.cartItems]) (deleteCart h)

/-- Effects that reach the user: alerts, the error banner, the cart shown and navigation.
Console output and requests do not. -/
def Effect.userFacing : Effect → Bool
  | Effect.alert _ => true
  | Effect.setError _ => true
  | Effect.setCartItems _ => true
  | Effect.navigate _ => true
  | Effect.consoleLog _ => false
  | Effect.consoleError _ => false
  | Effect.request _ => false

/-- What a run reports: how it completes (the value or error its caller receives) and the
user-facing effects it makes, oldest first. -/
def reportOf (p : Prog Unit) (w : World) : Completion Unit × List Effect :=
  ((p w).1, (effectsOf p w).filter Effect.userFacing)

/-- The natural number that a Number is, when it is a whole Number `+0, 1, 2, ...`. -/
def JSNumber.toNat? : JSNumber → Option Nat
  | JSNumber.fin false k => if k % 2 ^ 1074 = 0 then some (k / 2 ^ 1074) else none
  | _ => none

/-- The exact amount `unitPrice × quantity` of a cart line whose parsed price and quantity are
both whole Numbers. -/
def lineAmount? (h : Host) (item : CartItem) : Option Nat :=
  match (parseFloat h item.Price).toNat?, item.Quantity.toNat? with
  | some p, some k => some (p * k)
  | _, _ => none

/-- The exact sum of the line amounts of a cart of whole amounts. -/
def exactTotal (h : Host) (cart : List CartItem) : Nat :=
  (cart.map fun item => (lineAmount? h item).getD 0).sum

/-- The request that the `axios.delete` call of lines 37-39 sends: the URL ends with the
`cartID` argument, converted by the template literal. -/
def deleteItem (h : Host) (cartID : JSVal) : Request :=
  { method := Method.DELETE
    url := "http://localhost:5000/api/cart/" ++ cartID.toStr h.numberToString
    authorization := bearer h
    body := none }

/-- The handler `handleDelete` (lines 33-51).  `confirm` is `window.confirm`: the answer of
the user to the question asked; `cartItems` is the state of the render that made the
handler. -/
def handleDelete (h : Host) (net : Net) (confirm : String → Bool) (cartID : JSVal) :
    Prog Unit := fun w =>
  let cartItems := w.cartItems
  if !(confirm "⚠️ Are you sure you want to remove this item?") then
    Prog.ret () w
  else
    Prog.tryCatch
      (do
        let response ← axiosDelete h net
          ("http://localhost:5000/api/cart/" ++ cartID.toStr h.numberToString)
        let result ← dataOf response
        if result.status = JSVal.str "success" then do
          alert "✅ Item removed from cart!"
          setCartItems (cartItems.filter fun item => !(JSVal.strictEq item.CartID cartID))
        else
          setError "❌ Failed to remove item.")
      (fun err => do
        consoleError [LogArg.text "❌ Delete Cart Error:", LogArg.error err]
        setError "❌ Error removing item from cart.")
      w

/-- The outcome of the request of a `handleDelete` started in `w`. -/
def deleteOutcome (h : Host) (net : Net) (cartID : JSVal) (w : World) : HttpOutcome :=
  net (requestsOf w.trace) (deleteItem h cartID)

/-- Values on which `===` is equality of values: every value but `NaN`, which differs from
itself, and `-0`, which equals `+0`. -/
def JSVal.ordinary : JSVal → Bool
  | JSVal.num JSNumber.nan => false
  | JSVal.num (JSNumber.fin true 0) => false
  | _ => true

/-! ## Examples used to instantiate the results -/

/-- A host for the examples.  Its `numberToString` prints whole Numbers in decimal, which is
what `Number::toString` does for them below `10 ^ 21`; the examples pass no other Number to
it.  Its `toLocaleString` stands for one locale without digit grouping; no example reads what
it prints. -/
def demoHost : Host :=
  { numberToString := fun x =>
      match x with
      | JSNumber.nan => "NaN"
      | JSNumber.inf neg => if neg then "-Infinity" else "Infinity"
      | JSNumber.fin neg k => (if neg && k != 0 then "-" else "") ++ toString (k / 2 ^ 1074)
    toLocaleString := fun x =>
      match x with
      | JSNumber.nan => "NaN"
      | JSNumber.inf neg => if neg then "-∞" else "∞"
      | JSNumber.fin neg k => (if neg && k != 0 then "-" else "") ++ toString (k / 2 ^ 1074)
    token := some "t0k3n" }

/-- A cart row with the given price, customer and quantity. -/
def demoItem (cartID : Nat) (price : String) (customer : JSVal) (quantity : Nat) : CartItem :=
  { CartID := JSVal.num (JSNumber.ofNat cartID)
    ProductID := JSVal.num (JSNumber.ofNat (100 + cartID))
    ProductName := JSVal.str "item"
    Price := JSVal.str price
    CustomerID := customer
    Quantity := JSNumber.ofNat quantity }

/-- The cart of the scenario: 2 × 100.00 and 1 × 50.00, customer 7. -/
def demoCart : List CartItem :=
  [demoItem 1 "100.00" (JSVal.num (JSNumber.ofNat 7)) 2,
   demoItem 2 "50.00" (JSVal.num (JSNumber.ofNat 7)) 1]

/-- Three lines of one unit each, priced 0.10, 0.20 and 0.30. -/
def dimeCart : List CartItem :=
  [demoItem 1 "0.10" (JSVal.num (JSNumber.ofNat 7)) 1,
   demoItem 2 "0.20" (JSVal.num (JSNumber.ofNat 7)) 1,
   demoItem 3 "0.30" (JSVal.num (JSNumber.ofNat 7)) 1]

/-- The lines of `dimeCart` in the opposite order. -/
def dimeCartReversed : List CartItem :=
  [demoItem 3 "0.30" (JSVal.num (JSNumber.ofNat 7)) 1,
   demoItem 2 "0.20" (JSVal.num (JSNumber.ofNat 7)) 1,
   demoItem 1 "0.10" (JSVal.num (JSNumber.ofNat 7)) 1]

/-- A freshly rendered page holding `cart`. -/
def demoWorld (cart : List CartItem) : World := { cartItems := cart, error := "", trace := [] }

/-- A response with the given status and order id. -/
def demoData (status : String) (orderID : Nat) : ResponseData :=
  { status := JSVal.str status, OrderID := JSVal.num (JSNumber.ofNat orderID) }

/-- A server that answers the order request with `order` and the clear request with `clear`. -/
def demoNet (order clear : HttpOutcome) : Net := fun _ r =>
  if r.method = Method.POST then order else clear

/-! ## The eight runs of `handleCheckout` -/

theorem requestsOf_append (t u : List Effect) :
    requestsOf (t ++ u) = requestsOf t ++ requestsOf u := by
  simp [requestsOf, List.filterMap_append]

theorem requestsOf_nil : requestsOf [] = [] := rfl

theorem requestsOf_request (r : Request) (t : List Effect) :
    requestsOf (Effect.request r :: t) = r :: requestsOf t := by
  simp [requestsOf]

theorem requestsOf_consoleLog (a : List LogArg) (t : List Effect) :
    requestsOf (Effect.consoleLog a :: t) = requestsOf t := by
  simp [requestsOf]

theorem handleCheckout_empty (h : Host) (net : Net) (w : World) (hw : w.cartItems = []) :
    handleCheckout h net w =
      (Completion.normal (),
        { w with trace := w.trace ++ [Effect.alert "❌ Your cart is empty!"] }) := by
  simp [handleCheckout, hw, alert, Prog.emit]

theorem handleCheckout_order_rejected (h : Host) (net : Net) (w : World) (e : JSError)
    (hw : w.cartItems ≠ []) (ho : orderOutcome h net w = HttpOutcome.rejected e) :
    handleCheckout h net w =
      (Completion.normal (),
        { w with
          error := "❌ Error during checkout."
          trace := w.trace ++ [Effect.request (postOrders h w.cartItems),
            Effect.consoleError [LogArg.text "❌ Checkout Error:", LogArg.error e],
            Effect.setError "❌ Error during checkout."] }) := by
  simp only [orderOutcome, postOrders] at ho
  simp [handleCheckout, hw, Prog.emit, Prog.tryCatch, bind, Prog.andThen, axiosPost,
    axiosSend, ho, consoleError, setError, postOrders]

theorem handleCheckout_order_null (h : Host) (net : Net) (w : World)
    (hw : w.cartItems ≠ []) (ho : orderOutcome h net w = HttpOutcome.resolved none) :
    handleCheckout h net w =
      (Completion.normal (),
        { w with
          error := "❌ Error during checkout."
          trace := w.trace ++ [Effect.request (postOrders h w.cartItems),
            Effect.consoleError [LogArg.text "❌ Checkout Error:",
              LogArg.error (JSError.typeError "Cannot read properties of null")],
            Effect.setError "❌ Error during checkout."] }) := by
  simp only [orderOutcome, postOrders] at ho
  simp [handleCheckout, hw, Prog.emit, Prog.tryCatch, bind, Prog.andThen, axiosPost,
    axiosSend, ho, consoleError, setError, postOrders, dataOf, Prog.raise]

theorem handleCheckout_order_refused (h : Host) (net : Net) (w : World) (d : ResponseData)
    (hw : w.cartItems ≠ []) (ho : orderOutcome h net w = HttpOutcome.resolved (some d))
    (hs : d.status ≠ JSVal.str "success") :
    handleCheckout h net w =
      (Completion.normal (),
        { w with
          trace := w.trace ++ [Effect.request (postOrders h w.cartItems),
            Effect.alert "❌ Failed to create order."] }) := by
  simp only [orderOutcome, postOrders] at ho
  simp [handleCheckout, hw, Prog.emit, Prog.tryCatch, bind, Prog.andThen, axiosPost,
    axiosSend, ho, alert, postOrders, dataOf, Prog.ret, hs]

theorem handleCheckout_clear_rejected (h : Host) (net : Net) (w : World) (d : ResponseData)
    (e : JSError)
    (hw : w.cartItems ≠ []) (ho : orderOutcome h net w = HttpOutcome.resolved (some d))
    (hs : d.status = JSVal.str "success") (hc : clearOutcome h net w = HttpOutcome.rejected e) :
    handleCheckout h net w =
      (Completion.normal (),
        { w with
          error := "❌ Error during checkout."
          trace := w.trace ++ [Effect.request (postOrders h w.cartItems),
            Effect.consoleLog [LogArg.text "✅ Order created successfully:", LogArg.data d],
            Effect.request (deleteCart h),
            Effect.consoleError [LogArg.text "❌ Checkout Error:", LogArg.error e],
            Effect.setError "❌ Error during checkout."] }) := by
  simp only [orderOutcome, postOrders] at ho
  simp only [clearOutcome, postOrders, deleteCart] at hc
  simp [handleCheckout, hw, Prog.emit, Prog.tryCatch, bind, Prog.andThen, axiosPost,
    axiosDelete, axiosSend, ho, hc, consoleLog, consoleError, setError, postOrders, deleteCart,
    dataOf, Prog.ret, hs, requestsOf_append, requestsOf_nil, requestsOf_request, requestsOf_consoleLog]

theorem handleCheckout_clear_null (h : Host) (net : Net) (w : World) (d : ResponseData)
    (hw : w.cartItems ≠ []) (ho : orderOutcome h net w = HttpOutcome.resolved (some d))
    (hs : d.status = JSVal.str "success") (hc : clearOutcome h net w = HttpOutcome.resolved none) :
    handleCheckout h net w =
      (Completion.normal (),
        { w with
          error := "❌ Error during checkout."
          trace := w.trace ++ [Effect.request (postOrders h w.cartItems),
            Effect.consoleLog [LogArg.text "✅ Order created successfully:", LogArg.data d],
            Effect.request (deleteCart h),
            Effect.consoleError [LogArg.text "❌ Checkout Error:",
              LogArg.error (JSError.typeError "Cannot read properties of null")],
            Effect.setError "❌ Error during checkout."] }) := by
  simp only [orderOutcome, postOrders] at ho
  simp only [clearOutcome, postOrders, deleteCart] at hc
  simp [handleCheckout, hw, Prog.emit, Prog.tryCatch, bind, Prog.andThen, axiosPost,
    axiosDelete, axiosSend, ho, hc, consoleLog, consoleError, setError, postOrders, deleteCart,
    dataOf, Prog.ret, Prog.raise, hs, requestsOf_append, requestsOf_nil, requestsOf_request, requestsOf_consoleLog]

theorem handleCheckout_clear_refused (h : Host) (net : Net) (w : World) (d c : ResponseData)
    (hw : w.cartItems ≠ []) (ho : orderOutcome h net w = HttpOutcome.resolved (some d))
    (hs : d.status = JSVal.str "success")
    (hc : clearOutcome h net w = HttpOutcome.resolved (some c))
    (hcs : c.status ≠ JSVal.str "success") :
    handleCheckout h net w =
      (Completion.normal (),
        { w with
          trace := w.trace ++ [Effect.request (postOrders h w.cartItems),
            Effect.consoleLog [LogArg.text "✅ Order created successfully:", LogArg.data d],
            Effect.request (deleteCart h),
            Effect.alert "❌ Failed to clear cart items."] }) := by
  simp only [orderOutcome, postOrders] at ho
  simp only [clearOutcome, postOrders, deleteCart] at hc
  simp [handleCheckout, hw, Prog.emit, Prog.tryCatch, bind, Prog.andThen, axiosPost,
    axiosDelete, axiosSend, ho, hc, consoleLog, alert, postOrders, deleteCart,
    dataOf, Prog.ret, hs, hcs, requestsOf_append, requestsOf_nil, requestsOf_request, requestsOf_consoleLog]

theorem handleCheckout_success (h : Host) (net : Net) (w : World) (d c : ResponseData)
    (hw : w.cartItems ≠ []) (ho : orderOutcome h net w = HttpOutcome.resolved (some d))
    (hs : d.status = JSVal.str "success")
    (hc : clearOutcome h net w = HttpOutcome.resolved (some c))
    (hcs : c.status = JSVal.str "success") :
    handleCheckout h net w =
      (Completion.normal (),
        { w with
          cartItems := []
          trace := w.trace ++ [Effect.request (postOrders h w.cartItems),
            Effect.consoleLog [LogArg.text "✅ Order created successfully:", LogArg.data d],
            Effect.request (deleteCart h),
            Effect.consoleLog [LogArg.text "Cart cleared successfully"],
            Effect.setCartItems [],
            Effect.alert ("✅ Order placed successfully! Order ID: "
              ++ d.OrderID.toStr h.numberToString),
            Effect.navigate ("/orders?id=" ++ d.OrderID.toStr h.numberToString)] }) := by
  simp only [orderOutcome, postOrders] at ho
  simp only [clearOutcome, postOrders, deleteCart] at hc
  simp [handleCheckout, hw, Prog.emit, Prog.tryCatch, bind, Prog.andThen, axiosPost,
    axiosDelete, axiosSend, ho, hc, consoleLog, alert, navigate, setCartItems, postOrders,
    deleteCart, dataOf, Prog.ret, hs, hcs, requestsOf_append, requestsOf_nil, requestsOf_request, requestsOf_consoleLog]

theorem effectsOf_of_run (p : Prog Unit) (w : World) (c : Completion Unit) (items : List CartItem)
    (err : String) (l : List Effect)
    (hp : p w = (c, { cartItems := items, error := err, trace := w.trace ++ l })) :
    effectsOf p w = l := by
  simp [effectsOf, hp]

/-! ## C1: empty cart -/

/-- C1. On an empty cart `handleCheckout` completes normally, its only effect is the alert
"Your cart is empty!" (so it sends no request and does not navigate), and the cart and the
error message are unchanged. -/
theorem checkout_empty_cart (h : Host) (net : Net) (w : World) (hw : w.cartItems.length = 0) :
    (handleCheckout h net w).1 = Completion.normal () ∧
    effectsOf (handleCheckout h net) w = [Effect.alert "❌ Your cart is empty!"] ∧
    requestsOf (effectsOf (handleCheckout h net) w) = [] ∧
    (∀ p, Effect.navigate p ∉ effectsOf (handleCheckout h net) w) ∧
    (handleCheckout h net w).2.cartItems = w.cartItems ∧
    (handleCheckout h net w).2.error = w.error := by
  have hnil : w.cartItems = [] := List.length_eq_zero.mp hw
  have hrun := handleCheckout_empty h net w hnil
  have heff := effectsOf_of_run _ w _ _ _ _ hrun
  refine ⟨by rw [hrun], heff, ?_, ?_, by rw [hrun], by rw [hrun]⟩
  · rw [heff]; rfl
  · intro p; rw [heff]; simp

theorem checkout_empty_cart_witness :
    (demoWorld []).cartItems.length = 0 ∧
    effectsOf
        (handleCheckout demoHost
          (demoNet (HttpOutcome.resolved (some (demoData "success" 42)))
            (HttpOutcome.resolved (some (demoData "success" 0)))))
        (demoWorld []) = [Effect.alert "❌ Your cart is empty!"] :=
  ⟨rfl, (checkout_empty_cart demoHost _ (demoWorld []) rfl).2.1⟩

/-- For a non-empty cart the first effect of a checkout is the order request. -/
theorem handleCheckout_first_effect (h : Host) (net : Net) (w : World) (hw : w.cartItems ≠ []) :
    ∃ rest, effectsOf (handleCheckout h net) w =
      Effect.request (postOrders h w.cartItems) :: rest := by
  rcases ho : orderOutcome h net w with (_ | d) | e
  · exact ⟨_, effectsOf_of_run _ w _ _ _ _ (handleCheckout_order_null h net w hw ho)⟩
  · by_cases hs : d.status = JSVal.str "success"
    · rcases hc : clearOutcome h net w with (_ | c) | e
      · exact ⟨_, effectsOf_of_run _ w _ _ _ _ (handleCheckout_clear_null h net w d hw ho hs hc)⟩
      · by_cases hcs : c.status = JSVal.str "success"
        · exact ⟨_, effectsOf_of_run _ w _ _ _ _
            (handleCheckout_success h net w d c hw ho hs hc hcs)⟩
        · exact ⟨_, effectsOf_of_run _ w _ _ _ _
            (handleCheckout_clear_refused h net w d c hw ho hs hc hcs)⟩
      · exact ⟨_, effectsOf_of_run _ w _ _ _ _
          (handleCheckout_clear_rejected h net w d e hw ho hs hc)⟩
    · exact ⟨_, effectsOf_of_run _ w _ _ _ _ (handleCheckout_order_refused h net w d hw ho hs)⟩
  · exact ⟨_, effectsOf_of_run _ w _ _ _ _ (handleCheckout_order_rejected h net w e hw ho)⟩

theorem foldl_map_products (h : Host) (items : List CartItem) (acc : JSNumber) :
    items.foldl
        (fun total item => JSNumber.add total (JSNumber.mul (parseFloat h item.Price) item.Quantity))
        acc =
      (items.map fun item => JSNumber.mul (parseFloat h item.Price) item.Quantity).foldl
        JSNumber.add acc := by
  induction items generalizing acc with
  | nil => rfl
  | cons item rest ih => simp only [List.foldl_cons, List.map_cons]; exact ih _

/-! ## C2: the submitted total -/

/-- C2. For a non-empty cart the first effect of `handleCheckout` is the request
`POST /api/orders`, and the `TotalPrice` of its body is the sum, over the cart lines in cart
order and starting from `0`, of `parseFloat(Price) * Quantity`, the sum and the products being
those of JavaScript Numbers. -/
theorem checkout_total_price (h : Host) (net : Net) (w : World) (hw : w.cartItems ≠ []) :
    ∃ r rest, effectsOf (handleCheckout h net) w = Effect.request r :: rest ∧
      r.method = Method.POST ∧ r.url = "http://localhost:5000/api/orders" ∧
      r.body.bind (List.lookup "TotalPrice") =
        some (JSVal.num
          ((w.cartItems.map fun item =>
              JSNumber.mul (parseFloat h item.Price) item.Quantity).foldl
            JSNumber.add (JSNumber.fin false 0))) := by
  obtain ⟨rest, hrest⟩ := handleCheckout_first_effect h net w hw
  refine ⟨postOrders h w.cartItems, rest, hrest, rfl, rfl, ?_⟩
  simp [postOrders, orderData, List.lookup, totalAmount, foldl_map_products]

/-- C2, the scenario of the specification: for the cart of 2 × 100.00 and 1 × 50.00 the
submitted `TotalPrice` is the Number 250. -/
theorem checkout_total_price_witness :
    demoCart ≠ [] ∧
    ∃ r rest,
      effectsOf
          (handleCheckout demoHost
            (demoNet (HttpOutcome.resolved (some (demoData "success" 42)))
              (HttpOutcome.resolved (some (demoData "success" 0)))))
          (demoWorld demoCart) = Effect.request r :: rest ∧
      r.body.bind (List.lookup "TotalPrice") = some (JSVal.num (JSNumber.ofNat 250)) := by
  refine ⟨by decide, ?_⟩
  obtain ⟨r, rest, h1, _, _, h4⟩ :=
    checkout_total_price demoHost
      (demoNet (HttpOutcome.resolved (some (demoData "success" 42)))
        (HttpOutcome.resolved (some (demoData "success" 0))))
      (demoWorld demoCart) (by decide)
  refine ⟨r, rest, h1, ?_⟩
  rw [h4]
  decide!

/-! ## C3: order creation fails -/

/-- C3. For a non-empty cart, when the order request does not resolve with status
"success" (it resolves with another status, resolves without data, or rejects), the order
request is the only request sent, so `DELETE /cart` is not issued; the cart lines are
unchanged, no `setCartItems` is performed and there is no navigation. -/
theorem checkout_order_failure (h : Host) (net : Net) (w : World) (hw : w.cartItems ≠ [])
    (hfail : ∀ d, orderOutcome h net w = HttpOutcome.resolved (some d) →
      d.status ≠ JSVal.str "success") :
    requestsOf (effectsOf (handleCheckout h net) w) = [postOrders h w.cartItems] ∧
    (∀ r, Effect.request r ∈ effectsOf (handleCheckout h net) w → r.method ≠ Method.DELETE) ∧
    (handleCheckout h net w).2.cartItems = w.cartItems ∧
    (∀ items, Effect.setCartItems items ∉ effectsOf (handleCheckout h net) w) ∧
    (∀ p, Effect.navigate p ∉ effectsOf (handleCheckout h net) w) := by
  rcases ho : orderOutcome h net w with (_ | d) | e
  · have hrun := handleCheckout_order_null h net w hw ho
    have heff := effectsOf_of_run _ w _ _ _ _ hrun
    rw [heff, hrun]
    simp [requestsOf, postOrders]
  · have hrun := handleCheckout_order_refused h net w d hw ho (hfail d ho)
    have heff := effectsOf_of_run _ w _ _ _ _ hrun
    rw [heff, hrun]
    simp [requestsOf, postOrders]
  · have hrun := handleCheckout_order_rejected h net w e hw ho
    have heff := effectsOf_of_run _ w _ _ _ _ hrun
    rw [heff, hrun]
    simp [requestsOf, postOrders]

theorem checkout_order_failure_witness :
    demoCart ≠ [] ∧
    requestsOf
        (effectsOf
          (handleCheckout demoHost
            (demoNet (HttpOutcome.rejected (JSError.transport "Network Error"))
              (HttpOutcome.resolved (some (demoData "success" 0)))))
          (demoWorld demoCart)) = [postOrders demoHost demoCart] :=
  ⟨by decide,
    (checkout_order_failure demoHost
      (demoNet (HttpOutcome.rejected (JSError.transport "Network Error"))
        (HttpOutcome.resolved (some (demoData "success" 0))))
      (demoWorld demoCart) (by decide)
      (by intro d hd; simp [orderOutcome, demoNet, postOrders] at hd)).1⟩

/-! ## C4: full success -/

/-- C4. For a non-empty cart: when the order request resolves with status "success" and the
cart-clear request then resolves with status "success", the resulting cart is empty and the
run alerts and navigates with the `OrderID` of the order response, the navigation target
being `/orders?id=` followed by that `OrderID`; conversely a navigation happens only in this
case and only to that target. -/
theorem checkout_full_success (h : Host) (net : Net) (w : World) (hw : w.cartItems ≠ []) :
    (∀ d c, orderOutcome h net w = HttpOutcome.resolved (some d) →
      d.status = JSVal.str "success" →
      clearOutcome h net w = HttpOutcome.resolved (some c) →
      c.status = JSVal.str "success" →
        (handleCheckout h net w).2.cartItems = [] ∧
        Effect.alert ("✅ Order placed successfully! Order ID: "
          ++ d.OrderID.toStr h.numberToString) ∈ effectsOf (handleCheckout h net) w ∧
        Effect.navigate ("/orders?id=" ++ d.OrderID.toStr h.numberToString)
          ∈ effectsOf (handleCheckout h net) w) ∧
    (∀ p, Effect.navigate p ∈ effectsOf (handleCheckout h net) w →
      ∃ d c, orderOutcome h net w = HttpOutcome.resolved (some d) ∧
        d.status = JSVal.str "success" ∧
        clearOutcome h net w = HttpOutcome.resolved (some c) ∧
        c.status = JSVal.str "success" ∧
        p = "/orders?id=" ++ d.OrderID.toStr h.numberToString) := by
  constructor
  · intro d c ho hs hc hcs
    have hrun := handleCheckout_success h net w d c hw ho hs hc hcs
    have heff := effectsOf_of_run _ w _ _ _ _ hrun
    rw [heff, hrun]
    simp
  · intro p hp
    rcases ho : orderOutcome h net w with (_ | d) | e
    · rw [effectsOf_of_run _ w _ _ _ _ (handleCheckout_order_null h net w hw ho)] at hp
      simp at hp
    · by_cases hs : d.status = JSVal.str "success"
      · rcases hc : clearOutcome h net w with (_ | c) | e
        · rw [effectsOf_of_run _ w _ _ _ _
            (handleCheckout_clear_null h net w d hw ho hs hc)] at hp
          simp at hp
        · by_cases hcs : c.status = JSVal.str "success"
          · rw [effectsOf_of_run _ w _ _ _ _
              (handleCheckout_success h net w d c hw ho hs hc hcs)] at hp
            simp at hp
            exact ⟨d, c, rfl, hs, rfl, hcs, hp⟩
          · rw [effectsOf_of_run _ w _ _ _ _
              (handleCheckout_clear_refused h net w d c hw ho hs hc hcs)] at hp
            simp at hp
        · rw [effectsOf_of_run _ w _ _ _ _
            (handleCheckout_clear_rejected h net w d e hw ho hs hc)] at hp
          simp at hp
      · rw [effectsOf_of_run _ w _ _ _ _
          (handleCheckout_order_refused h net w d hw ho hs)] at hp
        simp at hp
    · rw [effectsOf_of_run _ w _ _ _ _ (handleCheckout_order_rejected h net w e hw ho)] at hp
      simp at hp

theorem checkout_full_success_witness :
    demoCart ≠ [] ∧
    (handleCheckout demoHost
        (demoNet (HttpOutcome.resolved (some (demoData "success" 42)))
          (HttpOutcome.resolved (some (demoData "success" 0))))
        (demoWorld demoCart)).2.cartItems = [] ∧
    Effect.navigate "/orders?id=42"
      ∈ effectsOf
        (handleCheckout demoHost
          (demoNet (HttpOutcome.resolved (some (demoData "success" 42)))
            (HttpOutcome.resolved (some (demoData "success" 0)))))
        (demoWorld demoCart) :=
  have key := (checkout_full_success demoHost
      (demoNet (HttpOutcome.resolved (some (demoData "success" 42)))
        (HttpOutcome.resolved (some (demoData "success" 0))))
      (demoWorld demoCart) (by decide)).1
      (demoData "success" 42) (demoData "success" 0) rfl rfl rfl rfl
  have hpath : "/orders?id=" ++ (demoData "success" 42).OrderID.toStr demoHost.numberToString
      = "/orders?id=42" := by decide!
  ⟨by decide, key.1, hpath ▸ key.2.2⟩

/-! ## C5: the order is created, clearing the cart fails -/

/-- C5 fails as stated.  Run A: the order is created with `OrderID` 42 and `DELETE /cart`
rejects with a network error.  Run B: the order request itself rejects with that error.
Both report the same thing (normal completion and the banner "Error during checkout."), so
the clear failure is not distinguishable from the creation failure.  Runs C and D: the order
is created with `OrderID` 42, respectively 43, and `DELETE /cart` answers "error"; their
reports are equal, so the report does not carry the `OrderID`. -/
theorem checkout_clear_failure_counterexample :
    reportOf
        (handleCheckout demoHost
          (demoNet (HttpOutcome.resolved (some (demoData "success" 42)))
            (HttpOutcome.rejected (JSError.transport "Network Error"))))
        (demoWorld demoCart) =
      reportOf
        (handleCheckout demoHost
          (demoNet (HttpOutcome.rejected (JSError.transport "Network Error"))
            (HttpOutcome.rejected (JSError.transport "Network Error"))))
        (demoWorld demoCart) ∧
    reportOf
        (handleCheckout demoHost
          (demoNet (HttpOutcome.resolved (some (demoData "success" 42)))
            (HttpOutcome.resolved (some (demoData "error" 0)))))
        (demoWorld demoCart) =
      reportOf
        (handleCheckout demoHost
          (demoNet (HttpOutcome.resolved (some (demoData "success" 43)))
            (HttpOutcome.resolved (some (demoData "error" 0)))))
        (demoWorld demoCart) := by
  constructor <;> rfl

/-- C5 as amended.  For a non-empty cart whose order request resolved with status
"success" and data `d`: (1) if `DELETE /cart` resolves with another status, the run
completes normally and reports exactly the alert "Failed to clear cart items.", which is
neither the alert of a refused order nor the banner of a thrown error; (2) if `DELETE /cart`
rejects, or resolves without data, the run completes normally and reports exactly the banner
"Error during checkout.", the same report as for a rejected order request; (3) in all these
cases the cart is unchanged and the only effect holding the `OrderID` is the earlier
`console.log` of the order response. -/
theorem checkout_clear_failure (h : Host) (net : Net) (w : World) (d : ResponseData)
    (hw : w.cartItems ≠ []) (ho : orderOutcome h net w = HttpOutcome.resolved (some d))
    (hs : d.status = JSVal.str "success")
    (hfail : ∀ c, clearOutcome h net w = HttpOutcome.resolved (some c) →
      c.status ≠ JSVal.str "success") :
    ((∃ c, clearOutcome h net w = HttpOutcome.resolved (some c)) →
      reportOf (handleCheckout h net) w =
        (Completion.normal (), [Effect.alert "❌ Failed to clear cart items."])) ∧
    ((∀ c, clearOutcome h net w ≠ HttpOutcome.resolved (some c)) →
      reportOf (handleCheckout h net) w =
        (Completion.normal (), [Effect.setError "❌ Error during checkout."])) ∧
    (handleCheckout h net w).2.cartItems = w.cartItems ∧
    Effect.consoleLog [LogArg.text "✅ Order created successfully:", LogArg.data d]
      ∈ effectsOf (handleCheckout h net) w ∧
    (∀ e ∈ effectsOf (handleCheckout h net) w,
      e = Effect.request (postOrders h w.cartItems) ∨
      e = Effect.consoleLog [LogArg.text "✅ Order created successfully:", LogArg.data d] ∨
      e = Effect.request (deleteCart h) ∨
      e = Effect.alert "❌ Failed to clear cart items." ∨
      e = Effect.setError "❌ Error during checkout." ∨
      ∃ err, e = Effect.consoleError [LogArg.text "❌ Checkout Error:", LogArg.error err]) := by
  rcases hc : clearOutcome h net w with (_ | c) | e
  · have hrun := handleCheckout_clear_null h net w d hw ho hs hc
    have heff := effectsOf_of_run _ w _ _ _ _ hrun
    simp only [reportOf, heff, hrun]
    simp [Effect.userFacing]
  · have hrun := handleCheckout_clear_refused h net w d c hw ho hs hc (hfail c hc)
    have heff := effectsOf_of_run _ w _ _ _ _ hrun
    simp only [reportOf, heff, hrun]
    simp [Effect.userFacing]
  · have hrun := handleCheckout_clear_rejected h net w d e hw ho hs hc
    have heff := effectsOf_of_run _ w _ _ _ _ hrun
    simp only [reportOf, heff, hrun]
    simp [Effect.userFacing]

theorem checkout_clear_failure_witness :
    demoCart ≠ [] ∧
    reportOf
        (handleCheckout demoHost
          (demoNet (HttpOutcome.resolved (some (demoData "success" 42)))
            (HttpOutcome.resolved (some (demoData "error" 0)))))
        (demoWorld demoCart) =
      (Completion.normal (), [Effect.alert "❌ Failed to clear cart items."]) :=
  ⟨by decide,
    (checkout_clear_failure demoHost
      (demoNet (HttpOutcome.resolved (some (demoData "success" 42)))
        (HttpOutcome.resolved (some (demoData "error" 0))))
      (demoWorld demoCart) (demoData "success" 42) (by decide) rfl rfl
      (by
        intro c hc
        have hc2 : demoData "error" 0 = c := by
          simpa [clearOutcome, demoNet, deleteCart] using hc
        rw [← hc2]
        decide)).1 ⟨demoData "error" 0, rfl⟩⟩

/-! ## C6: displayed total and submitted total -/

/-- C6. For every cart there is one Number `x`, computed from the cart lines alone, such that
`getTotalPrice` displays `x` formatted by `toLocaleString`, whatever that formatting is, and
such that `x` is the `TotalPrice` of `orderData`; and when the cart is not empty, whatever
the server, the error banner and the earlier effects are, the body of the order request that
`handleCheckout` sends has that same `TotalPrice`. -/
theorem displayed_total_is_submitted_total (h : Host) (cartItems : List CartItem) :
    ∃ x : JSNumber,
      (∀ fmt : JSNumber → String,
        getTotalPrice { h with toLocaleString := fmt } cartItems = fmt x) ∧
      List.lookup "TotalPrice" (orderData h cartItems) = some (JSVal.num x) ∧
      (cartItems ≠ [] → ∀ (net : Net) (err : String) (t : List Effect),
        ∃ r rest,
          effectsOf (handleCheckout h net) { cartItems := cartItems, error := err, trace := t } =
            Effect.request r :: rest ∧
          r.body.bind (List.lookup "TotalPrice") = some (JSVal.num x)) := by
  refine ⟨totalAmount h cartItems, ?_, ?_, ?_⟩
  · intro fmt
    rfl
  · simp [orderData, List.lookup]
  · intro hne net err t
    obtain ⟨rest, hrest⟩ := handleCheckout_first_effect h net
      { cartItems := cartItems, error := err, trace := t } hne
    refine ⟨_, rest, hrest, ?_⟩
    simp [postOrders, orderData, List.lookup]

theorem displayed_total_is_submitted_total_witness :
    ∃ x : JSNumber,
      getTotalPrice demoHost demoCart = demoHost.toLocaleString x ∧
      ∃ r rest,
        effectsOf
            (handleCheckout demoHost
              (demoNet (HttpOutcome.resolved (some (demoData "success" 42)))
                (HttpOutcome.resolved (some (demoData "success" 0)))))
            (demoWorld demoCart) = Effect.request r :: rest ∧
        r.body.bind (List.lookup "TotalPrice") = some (JSVal.num x) := by
  obtain ⟨x, h1, _, h3⟩ := displayed_total_is_submitted_total demoHost demoCart
  exact ⟨x, h1 demoHost.toLocaleString,
    h3 (by decide)
      (demoNet (HttpOutcome.resolved (some (demoData "success" 42)))
        (HttpOutcome.resolved (some (demoData "success" 0)))) "" []⟩

/-! ## C8: the customer of the order -/

/-- C8 fails as stated.  The first cart line carries the customer id `0`, and the submitted
`CustomerID` is the sentinel `1`, not the customer id of that line. -/
theorem checkout_customer_id_counterexample :
    (List.head? [demoItem 1 "100.00" (JSVal.num (JSNumber.ofNat 0)) 2]).map
        (fun item => item.CustomerID) = some (JSVal.num (JSNumber.ofNat 0)) ∧
    (List.head?
        (requestsOf
          (effectsOf
            (handleCheckout demoHost
              (demoNet (HttpOutcome.resolved (some (demoData "success" 42)))
                (HttpOutcome.resolved (some (demoData "success" 0)))))
            (demoWorld [demoItem 1 "100.00" (JSVal.num (JSNumber.ofNat 0)) 2])))).bind
        (fun r => r.body.bind (List.lookup "CustomerID")) =
      some (JSVal.num (JSNumber.ofNat 1)) := by
  constructor <;> decide!

/-- C8 as amended.  For a cart whose first line is `item`, the `CustomerID` of the submitted
order body is `item.CustomerID` when that value is truthy, and the sentinel `1` exactly when
it is falsy (`undefined`, `null`, `false`, `0`, `NaN` or the empty string); the other lines
do not influence it. -/
theorem checkout_customer_id (h : Host) (net : Net) (item : CartItem) (others : List CartItem)
    (err : String) (t : List Effect) :
    ∃ r rest,
      effectsOf (handleCheckout h net)
          { cartItems := item :: others, error := err, trace := t } = Effect.request r :: rest ∧
      r.body.bind (List.lookup "CustomerID") =
        some (if item.CustomerID.toBoolean then item.CustomerID
          else JSVal.num (JSNumber.ofNat 1)) := by
  obtain ⟨rest, hrest⟩ := handleCheckout_first_effect h net
    { cartItems := item :: others, error := err, trace := t } (by simp)
  refine ⟨_, rest, hrest, ?_⟩
  simp [postOrders, orderData, List.lookup, customerID, JSVal.or]

/-! ## C9: the order body -/

/-- C9. For a non-empty cart the body of the order request has exactly the three properties
`CustomerID`, `TotalPrice` and `Status`, in that order, and `Status` is the string
"Pending". -/
theorem checkout_order_body (h : Host) (net : Net) (w : World) (hw : w.cartItems ≠ []) :
    ∃ r rest body, effectsOf (handleCheckout h net) w = Effect.request r :: rest ∧
      r.method = Method.POST ∧ r.url = "http://localhost:5000/api/orders" ∧
      r.body = some body ∧
      body.map Prod.fst = ["CustomerID", "TotalPrice", "Status"] ∧
      List.lookup "Status" body = some (JSVal.str "Pending") := by
  obtain ⟨rest, hrest⟩ := handleCheckout_first_effect h net w hw
  refine ⟨_, rest, _, hrest, rfl, rfl, rfl, ?_, ?_⟩
  · simp [orderData]
  · simp [orderData, List.lookup]

theorem checkout_order_body_witness :
    demoCart ≠ [] ∧
    ∃ r rest body,
      effectsOf
          (handleCheckout demoHost
            (demoNet (HttpOutcome.rejected (JSError.transport "Network Error"))
              (HttpOutcome.rejected (JSError.transport "Network Error"))))
          (demoWorld demoCart) = Effect.request r :: rest ∧
      r.body = some body ∧ List.lookup "Status" body = some (JSVal.str "Pending") := by
  obtain ⟨r, rest, body, h1, _, _, h4, _, h6⟩ :=
    checkout_order_body demoHost
      (demoNet (HttpOutcome.rejected (JSError.transport "Network Error"))
        (HttpOutcome.rejected (JSError.transport "Network Error")))
      (demoWorld demoCart) (by decide)
  exact ⟨by decide, r, rest, body, h1, h4, h6⟩

/-! ## C10: nothing is thrown to the caller -/

/-- The run of a checkout on a non-empty cart is one of seven, each completing normally. -/
theorem handleCheckout_cases (h : Host) (net : Net) (w : World) (hw : w.cartItems ≠ []) :
    (handleCheckout h net w).1 = Completion.normal () ∧
    ((∃ d, effectsOf (handleCheckout h net) w =
        [Effect.request (postOrders h w.cartItems), Effect.alert "❌ Failed to create order."] ∧
        orderOutcome h net w = HttpOutcome.resolved (some d) ∧
        d.status ≠ JSVal.str "success") ∨
      (∃ d c, Effect.alert "❌ Failed to clear cart items." ∈ effectsOf (handleCheckout h net) w ∧
        orderOutcome h net w = HttpOutcome.resolved (some d) ∧
        clearOutcome h net w = HttpOutcome.resolved (some c) ∧
        c.status ≠ JSVal.str "success") ∨
      (∃ d c, Effect.alert ("✅ Order placed successfully! Order ID: "
            ++ d.OrderID.toStr h.numberToString) ∈ effectsOf (handleCheckout h net) w ∧
        orderOutcome h net w = HttpOutcome.resolved (some d) ∧
        d.status = JSVal.str "success" ∧
        clearOutcome h net w = HttpOutcome.resolved (some c) ∧
        c.status = JSVal.str "success") ∨
      (∃ err,
        (orderOutcome h net w = HttpOutcome.rejected err ∨
          (orderOutcome h net w = HttpOutcome.resolved none ∧
            err = JSError.typeError "Cannot read properties of null") ∨
          (∃ d, orderOutcome h net w = HttpOutcome.resolved (some d) ∧
            d.status = JSVal.str "success" ∧
            (clearOutcome h net w = HttpOutcome.rejected err ∨
              (clearOutcome h net w = HttpOutcome.resolved none ∧
                err = JSError.typeError "Cannot read properties of null")))) ∧
        Effect.consoleError [LogArg.text "❌ Checkout Error:", LogArg.error err]
          ∈ effectsOf (handleCheckout h net) w ∧
        Effect.setError "❌ Error during checkout." ∈ effectsOf (handleCheckout h net) w ∧
        (handleCheckout h net w).2.error = "❌ Error during checkout.")) := by
  rcases ho : orderOutcome h net w with (_ | d) | e
  · have hrun := handleCheckout_order_null h net w hw ho
    have heff := effectsOf_of_run _ w _ _ _ _ hrun
    rw [heff, hrun]
    simp
  · by_cases hs : d.status = JSVal.str "success"
    · rcases hc : clearOutcome h net w with (_ | c) | e
      · have hrun := handleCheckout_clear_null h net w d hw ho hs hc
        have heff := effectsOf_of_run _ w _ _ _ _ hrun
        rw [heff, hrun]
        simp [hs]
      · by_cases hcs : c.status = JSVal.str "success"
        · have hrun := handleCheckout_success h net w d c hw ho hs hc hcs
          have heff := effectsOf_of_run _ w _ _ _ _ hrun
          rw [heff, hrun]
          simp only [true_and]
          refine Or.inr (Or.inr (Or.inl ⟨d, c, by simp, rfl, hs, rfl, hcs⟩))
        · have hrun := handleCheckout_clear_refused h net w d c hw ho hs hc hcs
          have heff := effectsOf_of_run _ w _ _ _ _ hrun
          rw [heff, hrun]
          simp [hs, hcs]
      · have hrun := handleCheckout_clear_rejected h net w d e hw ho hs hc
        have heff := effectsOf_of_run _ w _ _ _ _ hrun
        rw [heff, hrun]
        simp [hs]
    · have hrun := handleCheckout_order_refused h net w d hw ho hs
      have heff := effectsOf_of_run _ w _ _ _ _ hrun
      rw [heff, hrun]
      simp [hs]
  · have hrun := handleCheckout_order_rejected h net w e hw ho
    have heff := effectsOf_of_run _ w _ _ _ _ hrun
    rw [heff, hrun]
    simp

/-- C10. Whatever the cart and whatever the server does, `handleCheckout` completes normally:
nothing is thrown to its caller.  Every run shows a message (an alert, or the error banner
set by `setError`), and every error thrown inside it, a rejected request or a response
without data at either step, ends in the `catch` block: it is logged and the banner is set
to "Error during checkout.". -/
theorem checkout_never_raises (h : Host) (net : Net) (w : World) :
    (handleCheckout h net w).1 = Completion.normal () ∧
    (∃ msg, Effect.alert msg ∈ effectsOf (handleCheckout h net) w ∨
      Effect.setError msg ∈ effectsOf (handleCheckout h net) w) ∧
    (w.cartItems ≠ [] →
      (orderOutcome h net w = HttpOutcome.resolved none ∨
        (∃ e, orderOutcome h net w = HttpOutcome.rejected e) ∨
        (∃ d, orderOutcome h net w = HttpOutcome.resolved (some d) ∧
          d.status = JSVal.str "success" ∧
          (clearOutcome h net w = HttpOutcome.resolved none ∨
            ∃ e, clearOutcome h net w = HttpOutcome.rejected e))) →
      Effect.setError "❌ Error during checkout." ∈ effectsOf (handleCheckout h net) w ∧
      (handleCheckout h net w).2.error = "❌ Error during checkout.") := by
  by_cases hw : w.cartItems = []
  · have hrun := handleCheckout_empty h net w hw
    have heff := effectsOf_of_run _ w _ _ _ _ hrun
    refine ⟨by rw [hrun], ⟨"❌ Your cart is empty!", Or.inl (by rw [heff]; simp)⟩,
      fun hne => absurd hw hne⟩
  · obtain ⟨hnorm, hcases⟩ := handleCheckout_cases h net w hw
    refine ⟨hnorm, ?_, ?_⟩
    · rcases hcases with ⟨d, heff, -⟩ | ⟨d, c, hmem, -⟩ | ⟨d, c, hmem, -⟩ | ⟨err, -, -, hmem, -⟩
      · exact ⟨"❌ Failed to create order.", Or.inl (by rw [heff]; simp)⟩
      · exact ⟨_, Or.inl hmem⟩
      · exact ⟨_, Or.inl hmem⟩
      · exact ⟨_, Or.inr hmem⟩
    · intro _ hthrown
      rcases hcases with ⟨d, -, ho, hs⟩ | ⟨d, c, -, ho, hc, hcs⟩ | ⟨d, c, -, ho, hs, hc, hcs⟩ |
        ⟨err, -, -, hmem, herr⟩
      · rcases hthrown with h1 | ⟨e, h1⟩ | ⟨d2, h1, hs2, -⟩
        · rw [ho] at h1; cases h1
        · rw [ho] at h1; cases h1
        · rw [ho] at h1
          have : d = d2 := by simpa using h1
          exact absurd (this ▸ hs2) hs
      · rcases hthrown with h1 | ⟨e, h1⟩ | ⟨d2, -, -, h2 | ⟨e, h2⟩⟩
        · rw [ho] at h1; cases h1
        · rw [ho] at h1; cases h1
        · rw [hc] at h2; cases h2
        · rw [hc] at h2; cases h2
      · rcases hthrown with h1 | ⟨e, h1⟩ | ⟨d2, -, -, h2 | ⟨e, h2⟩⟩
        · rw [ho] at h1; cases h1
        · rw [ho] at h1; cases h1
        · rw [hc] at h2; cases h2
        · rw [hc] at h2; cases h2
      · exact ⟨hmem, herr⟩

theorem checkout_never_raises_witness :
    demoCart ≠ [] ∧
    (handleCheckout demoHost
        (demoNet (HttpOutcome.resolved (some (demoData "success" 42)))
          (HttpOutcome.rejected (JSError.transport "Network Error")))
        (demoWorld demoCart)).1 = Completion.normal () ∧
    (handleCheckout demoHost
        (demoNet (HttpOutcome.resolved (some (demoData "success" 42)))
          (HttpOutcome.rejected (JSError.transport "Network Error")))
        (demoWorld demoCart)).2.error = "❌ Error during checkout." :=
  have key := checkout_never_raises demoHost
    (demoNet (HttpOutcome.resolved (some (demoData "success" 42)))
      (HttpOutcome.rejected (JSError.transport "Network Error")))
    (demoWorld demoCart)
  ⟨by decide, key.1,
    (key.2.2 (by decide)
      (Or.inr (Or.inr ⟨demoData "success" 42, rfl, rfl, Or.inr ⟨_, rfl⟩⟩))).2⟩

/-! ## Whole Numbers are added and multiplied exactly -/

theorem log2Fuel_le (f : Nat) : ∀ n k : Nat, n < 2 ^ (k + 1) → log2Fuel f n ≤ k := by
  induction f with
  | zero => intro n k _; simp [log2Fuel]
  | succ f ih =>
    intro n k hn
    unfold log2Fuel
    split
    · exact Nat.zero_le _
    · rename_i h2
      cases k with
      | zero => simp at hn; omega
      | succ k =>
        have : n / 2 < 2 ^ (k + 1) := by
          rw [Nat.div_lt_iff_lt_mul (by decide)]
          calc n < 2 ^ (k + 1 + 1) := hn
            _ = 2 ^ (k + 1) * 2 := by rw [Nat.pow_succ]
        have := ih (n / 2) k this
        omega

theorem roundUnits_of_dvd (num den : Nat) (hden : 0 < den)
    (hdvd : den * 2 ^ (log2Fuel (num / den) (num / den) - 52) ∣ num) :
    roundUnits num den = num / den := by
  obtain ⟨t, ht⟩ := hdvd
  have hpos : 0 < den * 2 ^ (log2Fuel (num / den) (num / den) - 52) :=
    Nat.mul_pos hden (Nat.two_pow_pos _)
  unfold roundUnits
  simp only
  have hr : num % (den * 2 ^ (log2Fuel (num / den) (num / den) - 52)) = 0 :=
    Nat.mod_eq_zero_of_dvd ⟨t, ht⟩
  rw [hr]
  simp only [Nat.mul_zero, hpos, if_true]
  generalize log2Fuel (num / den) (num / den) - 52 = s at *
  have hq : num / (den * 2 ^ s) = t := by
    rw [ht]; exact Nat.mul_div_cancel_left t hpos
  rw [hq]
  have : num / den = 2 ^ s * t := by
    rw [ht, Nat.mul_assoc]; exact Nat.mul_div_cancel_left _ hden
  rw [this, Nat.mul_comm]


theorem roundUnits_whole (a : Nat) (ha : a < 2 ^ 53) :
    roundUnits (a * 2 ^ 1074) 1 = a * 2 ^ 1074 := by
  have hlt : a * 2 ^ 1074 < 2 ^ (1126 + 1) := by
    calc a * 2 ^ 1074 < 2 ^ 53 * 2 ^ 1074 := Nat.mul_lt_mul_of_pos_right ha (Nat.two_pow_pos _)
      _ = 2 ^ (1126 + 1) := by rw [← Nat.pow_add]
  have hs := log2Fuel_le (a * 2 ^ 1074) (a * 2 ^ 1074) 1126 hlt
  have h := roundUnits_of_dvd (a * 2 ^ 1074) 1 (by decide) (by
    rw [Nat.div_one, Nat.one_mul]
    exact Dvd.dvd.mul_left (Nat.pow_dvd_pow 2 (by omega)) a)
  rw [h, Nat.div_one]

theorem roundUnits_whole_product (a b : Nat) (hab : a * b < 2 ^ 53) :
    roundUnits (a * 2 ^ 1074 * (b * 2 ^ 1074)) (2 ^ 1074) = a * b * 2 ^ 1074 := by
  have hnum : a * 2 ^ 1074 * (b * 2 ^ 1074) = a * b * 2 ^ 1074 * 2 ^ 1074 := by
    simp only [Nat.mul_assoc, Nat.mul_left_comm, Nat.mul_comm]
  have hdiv : a * 2 ^ 1074 * (b * 2 ^ 1074) / 2 ^ 1074 = a * b * 2 ^ 1074 := by
    rw [hnum]; exact Nat.mul_div_cancel _ (Nat.two_pow_pos _)
  have hlt : a * b * 2 ^ 1074 < 2 ^ (1126 + 1) := by
    calc a * b * 2 ^ 1074 < 2 ^ 53 * 2 ^ 1074 :=
          Nat.mul_lt_mul_of_pos_right hab (Nat.two_pow_pos _)
      _ = 2 ^ (1126 + 1) := by rw [← Nat.pow_add]
  have hs := log2Fuel_le (a * b * 2 ^ 1074) (a * b * 2 ^ 1074) 1126 hlt
  have h := roundUnits_of_dvd (a * 2 ^ 1074 * (b * 2 ^ 1074)) (2 ^ 1074) (Nat.two_pow_pos _) (by
    rw [hdiv, hnum, Nat.mul_comm (2 ^ 1074)]
    exact Nat.mul_dvd_mul (Dvd.dvd.mul_left (Nat.pow_dvd_pow 2 (by omega)) _) (Nat.dvd_refl _))
  rw [h, hdiv]

theorem ofUnits_whole (a : Nat) (ha : a < 2 ^ 53) :
    ofUnits false (a * 2 ^ 1074) = JSNumber.ofNat a := by
  have hlt : a * 2 ^ 1074 < 2 ^ 2098 := by
    calc a * 2 ^ 1074 < 2 ^ 53 * 2 ^ 1074 := Nat.mul_lt_mul_of_pos_right ha (Nat.two_pow_pos _)
      _ = 2 ^ 1127 := by rw [← Nat.pow_add]
      _ < 2 ^ 2098 := Nat.pow_lt_pow_right (by decide) (by decide)
  unfold ofUnits
  rw [if_neg (Nat.not_le.mpr hlt)]
  rfl

theorem add_ofNat (a b : Nat) (hab : a + b < 2 ^ 53) :
    JSNumber.add (JSNumber.ofNat a) (JSNumber.ofNat b) = JSNumber.ofNat (a + b) := by
  simp only [JSNumber.ofNat, JSNumber.add, if_true]
  rw [← Nat.add_mul, roundUnits_whole _ hab]
  exact ofUnits_whole _ hab

theorem mul_ofNat (a b : Nat) (hab : a * b < 2 ^ 53) :
    JSNumber.mul (JSNumber.ofNat a) (JSNumber.ofNat b) = JSNumber.ofNat (a * b) := by
  simp only [JSNumber.ofNat, JSNumber.mul]
  rw [roundUnits_whole_product _ _ hab]
  exact ofUnits_whole _ hab

theorem ofNat_zero : JSNumber.ofNat 0 = JSNumber.fin false 0 := by
  simp [JSNumber.ofNat]

theorem eq_ofNat_of_toNat? (x : JSNumber) (n : Nat) (hx : x.toNat? = some n) :
    x = JSNumber.ofNat n := by
  cases x with
  | nan => simp [JSNumber.toNat?] at hx
  | inf neg => simp [JSNumber.toNat?] at hx
  | fin neg k =>
    cases neg with
    | true => simp [JSNumber.toNat?] at hx
    | false =>
      have hx2 : (if k % 2 ^ 1074 = 0 then some (k / 2 ^ 1074) else none) = some n := hx
      by_cases hk : k % 2 ^ 1074 = 0
      · rw [if_pos hk] at hx2
        have hn : k / 2 ^ 1074 = n := Option.some.inj hx2
        have hk2 : k = n * 2 ^ 1074 := by
          rw [← hn]; exact (Nat.div_mul_cancel (Nat.dvd_of_mod_eq_zero hk)).symm
        rw [hk2]; rfl
      · rw [if_neg hk] at hx2
        cases hx2

theorem mul_of_lineAmount? (h : Host) (item : CartItem) (m : Nat)
    (hm : lineAmount? h item = some m) (hlt : m < 2 ^ 53) :
    JSNumber.mul (parseFloat h item.Price) item.Quantity = JSNumber.ofNat m := by
  unfold lineAmount? at hm
  split at hm
  · rename_i p k hp hk
    have hpk : p * k = m := by simpa using hm
    rw [eq_ofNat_of_toNat? _ p hp, eq_ofNat_of_toNat? _ k hk, ← hpk]
    exact mul_ofNat p k (hpk ▸ hlt)
  · cases hm

theorem foldl_whole (h : Host) (items : List CartItem) :
    ∀ acc : Nat, (∀ item ∈ items, (lineAmount? h item).isSome) →
      acc + exactTotal h items < 2 ^ 53 →
      items.foldl
          (fun total item =>
            JSNumber.add total (JSNumber.mul (parseFloat h item.Price) item.Quantity))
          (JSNumber.ofNat acc) =
        JSNumber.ofNat (acc + exactTotal h items) := by
  induction items with
  | nil => intro acc _ _; simp [exactTotal]
  | cons item rest ih =>
    intro acc hall hlt
    obtain ⟨m, hm⟩ := Option.isSome_iff_exists.mp (hall item (List.mem_cons_self _ _))
    have hsum : exactTotal h (item :: rest) = m + exactTotal h rest := by
      simp [exactTotal, hm]
    rw [hsum] at hlt
    rw [List.foldl_cons, mul_of_lineAmount? h item m hm (by omega), add_ofNat acc m (by omega),
      ih (acc + m) (fun it hit => hall it (List.mem_cons_of_mem _ hit)) (by omega), hsum,
      Nat.add_assoc]

theorem exactTotal_perm (h : Host) (cart cart2 : List CartItem) (hperm : cart.Perm cart2) :
    exactTotal h cart2 = exactTotal h cart := by
  unfold exactTotal
  exact ((hperm.map _).sum_eq).symm

/-! ## C7: order of the lines and exactness of the total -/

/-- C7 fails as stated.  The three lines 0.10, 0.20 and 0.30 (one unit each) give the total
`0.6000000000000001` in that order and `0.6` in the opposite order: the total depends on the
order of the lines, and in the first order it is not the Number nearest to the exact sum
0.60. -/
theorem total_price_order_counterexample :
    dimeCart ≠ [] ∧ dimeCart.Perm dimeCartReversed ∧
    totalAmount demoHost dimeCart ≠ totalAmount demoHost dimeCartReversed ∧
    totalAmount demoHost dimeCart = parseFloatString "0.6000000000000001" ∧
    totalAmount demoHost dimeCartReversed = parseFloatString "0.6" := by
  refine ⟨by decide, ?_, by decide!, by decide!, by decide!⟩
  exact List.reverse_perm dimeCartReversed

/-- C7 as amended.  For a non-empty cart in which the parsed price and the quantity of every
line are whole Numbers and whose exact total is below `2 ^ 53`, the computed `totalAmount` is
the same for every permutation of the lines and is the exact sum of `unitPrice × quantity`. -/
theorem total_price_whole_amounts (h : Host) (cart cart2 : List CartItem) (_hne : cart ≠ [])
    (hwhole : ∀ item ∈ cart, (lineAmount? h item).isSome)
    (hbound : exactTotal h cart < 2 ^ 53) (hperm : cart.Perm cart2) :
    totalAmount h cart2 = JSNumber.ofNat (exactTotal h cart) ∧
    totalAmount h cart2 = totalAmount h cart := by
  have key : ∀ c : List CartItem, cart.Perm c →
      totalAmount h c = JSNumber.ofNat (exactTotal h cart) := by
    intro c hc
    have h1 := foldl_whole h c 0 (fun it hit => hwhole it (hc.mem_iff.mpr hit))
      (by rw [exactTotal_perm h cart c hc]; omega)
    rw [ofNat_zero, Nat.zero_add, exactTotal_perm h cart c hc] at h1
    exact h1
  exact ⟨key cart2 hperm, by rw [key cart2 hperm, key cart (List.Perm.refl _)]⟩

theorem total_price_whole_amounts_witness :
    demoCart ≠ [] ∧ demoCart.Perm demoCart.reverse ∧
    totalAmount demoHost demoCart.reverse = JSNumber.ofNat 250 := by
  have hexact : exactTotal demoHost demoCart = 250 := by decide!
  have key := total_price_whole_amounts demoHost demoCart demoCart.reverse (by decide)
    (by decide!) (by rw [hexact]; decide) (List.reverse_perm demoCart).symm
  rw [hexact] at key
  exact ⟨by decide, (List.reverse_perm demoCart).symm, key.1⟩

/-! ## C11: the cart after a failed clear -/

/-- The trace after a checkout is the trace before it followed by the effects of the run. -/
theorem handleCheckout_trace (h : Host) (net : Net) (w : World) :
    (handleCheckout h net w).2.trace = w.trace ++ effectsOf (handleCheckout h net) w := by
  by_cases hw : w.cartItems = []
  · have hrun := handleCheckout_empty h net w hw
    rw [effectsOf_of_run _ w _ _ _ _ hrun, hrun]
  · rcases ho : orderOutcome h net w with (_ | d) | e
    · have hrun := handleCheckout_order_null h net w hw ho
      rw [effectsOf_of_run _ w _ _ _ _ hrun, hrun]
    · by_cases hs : d.status = JSVal.str "success"
      · rcases hc : clearOutcome h net w with (_ | c) | e
        · have hrun := handleCheckout_clear_null h net w d hw ho hs hc
          rw [effectsOf_of_run _ w _ _ _ _ hrun, hrun]
        · by_cases hcs : c.status = JSVal.str "success"
          · have hrun := handleCheckout_success h net w d c hw ho hs hc hcs
            rw [effectsOf_of_run _ w _ _ _ _ hrun, hrun]
          · have hrun := handleCheckout_clear_refused h net w d c hw ho hs hc hcs
            rw [effectsOf_of_run _ w _ _ _ _ hrun, hrun]
        · have hrun := handleCheckout_clear_rejected h net w d e hw ho hs hc
          rw [effectsOf_of_run _ w _ _ _ _ hrun, hrun]
      · have hrun := handleCheckout_order_refused h net w d hw ho hs
        rw [effectsOf_of_run _ w _ _ _ _ hrun, hrun]
    · have hrun := handleCheckout_order_rejected h net w e hw ho
      rw [effectsOf_of_run _ w _ _ _ _ hrun, hrun]

/-- C11. For a non-empty cart: (1) when the order request resolved with status "success"
and the cart-clear request fails (it resolves with another status, resolves without data, or
rejects), the cart after the run is the cart before it, the same lines in the same order,
and the run performs no `setCartItems`; (2) a `setCartItems` happens only with the empty
list, only when the cart-clear request resolved with status "success", and only after the
`DELETE /cart` request was sent. -/
theorem checkout_cart_kept_until_cleared (h : Host) (net : Net) (w : World)
    (hw : w.cartItems ≠ []) :
    (∀ d, orderOutcome h net w = HttpOutcome.resolved (some d) →
      d.status = JSVal.str "success" →
      (∀ c, clearOutcome h net w = HttpOutcome.resolved (some c) →
        c.status ≠ JSVal.str "success") →
      (handleCheckout h net w).2.cartItems = w.cartItems ∧
      ∀ items, Effect.setCartItems items ∉ effectsOf (handleCheckout h net) w) ∧
    (∀ items, Effect.setCartItems items ∈ effectsOf (handleCheckout h net) w →
      items = [] ∧
      (∃ c, clearOutcome h net w = HttpOutcome.resolved (some c) ∧
        c.status = JSVal.str "success") ∧
      ∃ before after, effectsOf (handleCheckout h net) w =
          before ++ Effect.setCartItems [] :: after ∧
        Effect.request (deleteCart h) ∈ before) := by
  constructor
  · intro d ho hs hfail
    rcases hc : clearOutcome h net w with (_ | c) | e
    · have hrun := handleCheckout_clear_null h net w d hw ho hs hc
      rw [effectsOf_of_run _ w _ _ _ _ hrun, hrun]
      simp
    · have hrun := handleCheckout_clear_refused h net w d c hw ho hs hc (hfail c hc)
      rw [effectsOf_of_run _ w _ _ _ _ hrun, hrun]
      simp
    · have hrun := handleCheckout_clear_rejected h net w d e hw ho hs hc
      rw [effectsOf_of_run _ w _ _ _ _ hrun, hrun]
      simp
  · intro items hmem
    rcases ho : orderOutcome h net w with (_ | d) | e
    · rw [effectsOf_of_run _ w _ _ _ _ (handleCheckout_order_null h net w hw ho)] at hmem
      simp at hmem
    · by_cases hs : d.status = JSVal.str "success"
      · rcases hc : clearOutcome h net w with (_ | c) | e
        · rw [effectsOf_of_run _ w _ _ _ _
            (handleCheckout_clear_null h net w d hw ho hs hc)] at hmem
          simp at hmem
        · by_cases hcs : c.status = JSVal.str "success"
          · have heff := effectsOf_of_run _ w _ _ _ _
              (handleCheckout_success h net w d c hw ho hs hc hcs)
            rw [heff] at hmem
            simp at hmem
            refine ⟨hmem, ⟨c, rfl, hcs⟩,
              [Effect.request (postOrders h w.cartItems),
                Effect.consoleLog [LogArg.text "✅ Order created successfully:", LogArg.data d],
                Effect.request (deleteCart h),
                Effect.consoleLog [LogArg.text "Cart cleared successfully"]],
              [Effect.alert ("✅ Order placed successfully! Order ID: "
                  ++ d.OrderID.toStr h.numberToString),
                Effect.navigate ("/orders?id=" ++ d.OrderID.toStr h.numberToString)],
              ?_, by simp⟩
            rw [heff]
            rfl
          · rw [effectsOf_of_run _ w _ _ _ _
              (handleCheckout_clear_refused h net w d c hw ho hs hc hcs)] at hmem
            simp at hmem
        · rw [effectsOf_of_run _ w _ _ _ _
            (handleCheckout_clear_rejected h net w d e hw ho hs hc)] at hmem
          simp at hmem
      · rw [effectsOf_of_run _ w _ _ _ _
          (handleCheckout_order_refused h net w d hw ho hs)] at hmem
        simp at hmem
    · rw [effectsOf_of_run _ w _ _ _ _ (handleCheckout_order_rejected h net w e hw ho)] at hmem
      simp at hmem

theorem checkout_cart_kept_until_cleared_witness :
    demoCart ≠ [] ∧
    (handleCheckout demoHost
        (demoNet (HttpOutcome.resolved (some (demoData "success" 42)))
          (HttpOutcome.rejected (JSError.transport "Network Error")))
        (demoWorld demoCart)).2.cartItems = demoCart :=
  ⟨by decide,
    ((checkout_cart_kept_until_cleared demoHost
      (demoNet (HttpOutcome.resolved (some (demoData "success" 42)))
        (HttpOutcome.rejected (JSError.transport "Network Error")))
      (demoWorld demoCart) (by decide)).1 (demoData "success" 42) rfl rfl
      (by
        intro c hc
        simp [clearOutcome, demoNet, deleteCart] at hc)).1⟩

/-! ## C12: no retry, and a repeated checkout -/

/-- The requests of one checkout: none, the order request, or the order request followed by
the cart-clear request; after a created order and a failed clear they are both requests and
the cart is unchanged. -/
theorem handleCheckout_requests (h : Host) (net : Net) (w : World) :
    (requestsOf (effectsOf (handleCheckout h net) w) = [] ∨
      requestsOf (effectsOf (handleCheckout h net) w) = [postOrders h w.cartItems] ∨
      requestsOf (effectsOf (handleCheckout h net) w) =
        [postOrders h w.cartItems, deleteCart h]) ∧
    (w.cartItems ≠ [] → ∀ d, orderOutcome h net w = HttpOutcome.resolved (some d) →
      d.status = JSVal.str "success" →
      (∀ c, clearOutcome h net w = HttpOutcome.resolved (some c) →
        c.status ≠ JSVal.str "success") →
      requestsOf (effectsOf (handleCheckout h net) w) =
        [postOrders h w.cartItems, deleteCart h] ∧
      (handleCheckout h net w).2.cartItems = w.cartItems) := by
  by_cases hw : w.cartItems = []
  · have hrun := handleCheckout_empty h net w hw
    rw [effectsOf_of_run _ w _ _ _ _ hrun]
    exact ⟨Or.inl rfl, fun hne => absurd hw hne⟩
  · rcases ho : orderOutcome h net w with (_ | d) | e
    · have hrun := handleCheckout_order_null h net w hw ho
      rw [effectsOf_of_run _ w _ _ _ _ hrun]
      refine ⟨Or.inr (Or.inl (by simp [requestsOf])), ?_⟩
      intro _ d hd; cases hd
    · by_cases hs : d.status = JSVal.str "success"
      · rcases hc : clearOutcome h net w with (_ | c) | e
        · have hrun := handleCheckout_clear_null h net w d hw ho hs hc
          rw [effectsOf_of_run _ w _ _ _ _ hrun, hrun]
          exact ⟨Or.inr (Or.inr (by simp [requestsOf])), fun _ _ _ _ _ =>
            ⟨by simp [requestsOf], rfl⟩⟩
        · by_cases hcs : c.status = JSVal.str "success"
          · have hrun := handleCheckout_success h net w d c hw ho hs hc hcs
            rw [effectsOf_of_run _ w _ _ _ _ hrun, hrun]
            exact ⟨Or.inr (Or.inr (by simp [requestsOf])), fun _ _ _ _ hfail =>
              absurd hcs (hfail c rfl)⟩
          · have hrun := handleCheckout_clear_refused h net w d c hw ho hs hc hcs
            rw [effectsOf_of_run _ w _ _ _ _ hrun, hrun]
            exact ⟨Or.inr (Or.inr (by simp [requestsOf])), fun _ _ _ _ _ =>
              ⟨by simp [requestsOf], rfl⟩⟩
        · have hrun := handleCheckout_clear_rejected h net w d e hw ho hs hc
          rw [effectsOf_of_run _ w _ _ _ _ hrun, hrun]
          exact ⟨Or.inr (Or.inr (by simp [requestsOf])), fun _ _ _ _ _ =>
            ⟨by simp [requestsOf], rfl⟩⟩
      · have hrun := handleCheckout_order_refused h net w d hw ho hs
        rw [effectsOf_of_run _ w _ _ _ _ hrun]
        refine ⟨Or.inr (Or.inl (by simp [requestsOf])), ?_⟩
        intro _ d2 hd hs2
        have : d = d2 := by simpa using hd
        exact absurd (this ▸ hs2) hs
    · have hrun := handleCheckout_order_rejected h net w e hw ho
      rw [effectsOf_of_run _ w _ _ _ _ hrun]
      refine ⟨Or.inr (Or.inl (by simp [requestsOf])), ?_⟩
      intro _ d hd; cases hd

/-- C12. One run of `handleCheckout` sends at most one order request and at most one
cart-clear request: its requests are none, or `POST /api/orders`, or `POST /api/orders`
followed by `DELETE /api/cart`; nothing is retried.  After a run on a non-empty cart in which
the order was created and the clear failed, the cart is unchanged, and a second run starts
with an order request equal to the first one (same URL, same header, same body, no
distinguishing key), so the server receives the order request twice. -/
theorem checkout_no_retry (h : Host) (net : Net) (w : World) :
    (requestsOf (effectsOf (handleCheckout h net) w) = [] ∨
      requestsOf (effectsOf (handleCheckout h net) w) = [postOrders h w.cartItems] ∨
      requestsOf (effectsOf (handleCheckout h net) w) =
        [postOrders h w.cartItems, deleteCart h]) ∧
    (requestsOf (effectsOf (handleCheckout h net) w)).countP
        (fun r => decide (r.method = Method.POST)) ≤ 1 ∧
    (requestsOf (effectsOf (handleCheckout h net) w)).countP
        (fun r => decide (r.method = Method.DELETE)) ≤ 1 ∧
    (w.cartItems ≠ [] → ∀ d, orderOutcome h net w = HttpOutcome.resolved (some d) →
      d.status = JSVal.str "success" →
      (∀ c, clearOutcome h net w = HttpOutcome.resolved (some c) →
        c.status ≠ JSVal.str "success") →
      (handleCheckout h net w).2.cartItems = w.cartItems ∧
      ∃ rest,
        effectsOf (handleCheckout h net) (handleCheckout h net w).2 =
          Effect.request (postOrders h w.cartItems) :: rest ∧
        requestsOf (handleCheckout h net (handleCheckout h net w).2).2.trace =
          requestsOf w.trace ++
            postOrders h w.cartItems :: deleteCart h :: postOrders h w.cartItems ::
              requestsOf rest) := by
  obtain ⟨hreq, hagain⟩ := handleCheckout_requests h net w
  refine ⟨hreq, ?_, ?_, ?_⟩
  · rcases hreq with h0 | h1 | h2
    · rw [h0]; simp
    · rw [h1]; simp [postOrders]
    · rw [h2]; simp [postOrders, deleteCart]
  · rcases hreq with h0 | h1 | h2
    · rw [h0]; simp
    · rw [h1]; simp [postOrders]
    · rw [h2]; simp [postOrders, deleteCart]
  · intro hw d ho hs hfail
    obtain ⟨hreqs, hcart⟩ := hagain hw d ho hs hfail
    refine ⟨hcart, ?_⟩
    obtain ⟨rest, hrest⟩ := handleCheckout_first_effect h net (handleCheckout h net w).2
      (by rw [hcart]; exact hw)
    rw [hcart] at hrest
    refine ⟨rest, hrest, ?_⟩
    rw [handleCheckout_trace h net (handleCheckout h net w).2, handleCheckout_trace h net w,
      requestsOf_append, requestsOf_append, hreqs, hrest, requestsOf_request]
    simp

theorem checkout_no_retry_witness :
    demoCart ≠ [] ∧
    ∃ rest,
      requestsOf
          (handleCheckout demoHost
            (demoNet (HttpOutcome.resolved (some (demoData "success" 42)))
              (HttpOutcome.rejected (JSError.transport "Network Error")))
            (handleCheckout demoHost
              (demoNet (HttpOutcome.resolved (some (demoData "success" 42)))
                (HttpOutcome.rejected (JSError.transport "Network Error")))
              (demoWorld demoCart)).2).2.trace =
        postOrders demoHost demoCart :: deleteCart demoHost :: postOrders demoHost demoCart ::
          rest := by
  obtain ⟨_, rest, _, h3⟩ :=
    (checkout_no_retry demoHost
      (demoNet (HttpOutcome.resolved (some (demoData "success" 42)))
        (HttpOutcome.rejected (JSError.transport "Network Error")))
      (demoWorld demoCart)).2.2.2 (by decide) (demoData "success" 42) rfl rfl
      (by
        intro c hc
        simp [clearOutcome, demoNet, deleteCart] at hc)
  exact ⟨by decide, requestsOf rest, h3⟩

/-! ## The runs of `handleDelete` -/

theorem handleDelete_declined (h : Host) (net : Net) (confirm : String → Bool) (cartID : JSVal)
    (w : World) (hno : confirm "⚠️ Are you sure you want to remove this item?" = false) :
    handleDelete h net confirm cartID w = (Completion.normal (), w) := by
  simp [handleDelete, hno, Prog.ret]

theorem handleDelete_rejected (h : Host) (net : Net) (confirm : String → Bool) (cartID : JSVal)
    (w : World) (e : JSError)
    (hyes : confirm "⚠️ Are you sure you want to remove this item?" = true)
    (ho : deleteOutcome h net cartID w = HttpOutcome.rejected e) :
    handleDelete h net confirm cartID w =
      (Completion.normal (),
        { w with
          error := "❌ Error removing item from cart."
          trace := w.trace ++ [Effect.request (deleteItem h cartID),
            Effect.consoleError [LogArg.text "❌ Delete Cart Error:", LogArg.error e],
            Effect.setError "❌ Error removing item from cart."] }) := by
  simp only [deleteOutcome, deleteItem] at ho
  simp [handleDelete, hyes, Prog.emit, Prog.tryCatch, bind, Prog.andThen, axiosDelete,
    axiosSend, ho, consoleError, setError, deleteItem]

theorem handleDelete_null (h : Host) (net : Net) (confirm : String → Bool) (cartID : JSVal)
    (w : World)
    (hyes : confirm "⚠️ Are you sure you want to remove this item?" = true)
    (ho : deleteOutcome h net cartID w = HttpOutcome.resolved none) :
    handleDelete h net confirm cartID w =
      (Completion.normal (),
        { w with
          error := "❌ Error removing item from cart."
          trace := w.trace ++ [Effect.request (deleteItem h cartID),
            Effect.consoleError [LogArg.text "❌ Delete Cart Error:",
              LogArg.error (JSError.typeError "Cannot read properties of null")],
            Effect.setError "❌ Error removing item from cart."] }) := by
  simp only [deleteOutcome, deleteItem] at ho
  simp [handleDelete, hyes, Prog.emit, Prog.tryCatch, bind, Prog.andThen, axiosDelete,
    axiosSend, ho, consoleError, setError, deleteItem, dataOf, Prog.raise]

theorem handleDelete_refused (h : Host) (net : Net) (confirm : String → Bool) (cartID : JSVal)
    (w : World) (d : ResponseData)
    (hyes : confirm "⚠️ Are you sure you want to remove this item?" = true)
    (ho : deleteOutcome h net cartID w = HttpOutcome.resolved (some d))
    (hs : d.status ≠ JSVal.str "success") :
    handleDelete h net confirm cartID w =
      (Completion.normal (),
        { w with
          error := "❌ Failed to remove item."
          trace := w.trace ++ [Effect.request (deleteItem h cartID),
            Effect.setError "❌ Failed to remove item."] }) := by
  simp only [deleteOutcome, deleteItem] at ho
  simp [handleDelete, hyes, Prog.emit, Prog.tryCatch, bind, Prog.andThen, axiosDelete,
    axiosSend, ho, setError, deleteItem, dataOf, Prog.ret, hs]

theorem handleDelete_success (h : Host) (net : Net) (confirm : String → Bool) (cartID : JSVal)
    (w : World) (d : ResponseData)
    (hyes : confirm "⚠️ Are you sure you want to remove this item?" = true)
    (ho : deleteOutcome h net cartID w = HttpOutcome.resolved (some d))
    (hs : d.status = JSVal.str "success") :
    handleDelete h net confirm cartID w =
      (Completion.normal (),
        { w with
          cartItems := w.cartItems.filter fun item => !(JSVal.strictEq item.CartID cartID)
          trace := w.trace ++ [Effect.request (deleteItem h cartID),
            Effect.alert "✅ Item removed from cart!",
            Effect.setCartItems
              (w.cartItems.filter fun item => !(JSVal.strictEq item.CartID cartID))] }) := by
  simp only [deleteOutcome, deleteItem] at ho
  simp [handleDelete, hyes, Prog.emit, Prog.tryCatch, bind, Prog.andThen, axiosDelete,
    axiosSend, ho, alert, setCartItems, deleteItem, dataOf, Prog.ret, hs]


theorem strictEq_of_both (a b c : JSVal) (ha : JSVal.strictEq a c = true)
    (hb : JSVal.strictEq b c = true) : JSVal.strictEq a b = true := by
  cases a with
  | undefined => cases c <;> cases b <;> simp_all [JSVal.strictEq]
  | null => cases c <;> cases b <;> simp_all [JSVal.strictEq]
  | bool x => cases c <;> cases b <;> simp_all [JSVal.strictEq]
  | str x => cases c <;> cases b <;> simp_all [JSVal.strictEq]
  | num x =>
    cases c with
    | num z =>
      cases b with
      | num y =>
        cases x <;> cases z <;> cases y <;> simp_all [JSVal.strictEq]
        rcases ha with ⟨ha1, ha2 | ha2⟩ <;> rcases hb with ⟨hb1, hb2 | hb2⟩ <;>
          first
            | (left; omega)
            | (right; rw [ha2, hb2])
      | _ => simp_all [JSVal.strictEq]
    | _ => simp_all [JSVal.strictEq]

theorem strictEq_ordinary (a b : JSVal) (ha : a.ordinary = true) (hb : b.ordinary = true) :
    JSVal.strictEq a b = true ↔ a = b := by
  cases a with
  | undefined => cases b <;> simp [JSVal.strictEq]
  | null => cases b <;> simp [JSVal.strictEq]
  | bool x => cases b <;> simp [JSVal.strictEq]
  | str x => cases b <;> simp [JSVal.strictEq]
  | num x =>
    cases b with
    | num y =>
      cases x with
      | nan => simp [JSVal.ordinary] at ha
      | inf s => cases y <;> simp [JSVal.strictEq]
      | fin s j =>
        cases y with
        | nan => simp [JSVal.ordinary] at hb
        | inf t => simp [JSVal.strictEq]
        | fin t k =>
          cases s <;> cases t <;> simp [JSVal.strictEq]
          · intro hjk hj
            subst hjk
            subst hj
            simp [JSVal.ordinary] at hb
          · intro hjk hj
            subst hjk
            subst hj
            simp [JSVal.ordinary] at ha
    | _ => simp [JSVal.strictEq]

theorem filter_of_unique (cartID : JSVal) (items : List CartItem)
    (huniq : items.Pairwise fun a b => JSVal.strictEq a.CartID b.CartID = false) :
    ((∃ item ∈ items, JSVal.strictEq item.CartID cartID = true) →
      (items.filter fun item => !(JSVal.strictEq item.CartID cartID)).length + 1 =
        items.length) ∧
    ((∀ item ∈ items, JSVal.strictEq item.CartID cartID = false) →
      (items.filter fun item => !(JSVal.strictEq item.CartID cartID)) = items) := by
  constructor
  · induction items with
    | nil => rintro ⟨item, hmem, -⟩; cases hmem
    | cons x xs ih =>
      rw [List.pairwise_cons] at huniq
      obtain ⟨hx, hxs⟩ := huniq
      rintro ⟨item, hmem, hitem⟩
      by_cases hxc : JSVal.strictEq x.CartID cartID = true
      · have hrest : ∀ y ∈ xs, (!(JSVal.strictEq y.CartID cartID)) = true := by
          intro y hy
          by_cases hyc : JSVal.strictEq y.CartID cartID = true
          · have := strictEq_of_both _ _ _ hxc hyc
            rw [hx y hy] at this
            cases this
          · simpa using hyc
        rw [List.filter_cons_of_neg (by simp [hxc]), List.filter_eq_self.mpr hrest]
        rfl
      · have hin : ∃ item ∈ xs, JSVal.strictEq item.CartID cartID = true := by
          rcases List.mem_cons.mp hmem with rfl | hmem2
          · exact absurd hitem hxc
          · exact ⟨item, hmem2, hitem⟩
        rw [List.filter_cons_of_pos (by simpa using hxc), List.length_cons, List.length_cons,
          ih hxs hin]
  · intro habs
    exact List.filter_eq_self.mpr (fun y hy => by simp [habs y hy])

/-! ## C13: removing one line -/

/-- C13. (1) When the user confirms and the delete request resolves with status "success",
`handleDelete` replaces the cart by the lines whose `CartID` is `!==` the argument `cartID`:
the new cart is that filter of the old one, a sublist of it (the kept lines keep their
relative order), and a line is in it exactly when it was in the cart and its `CartID` is not
`=== cartID`.  If moreover the `CartID`s of the cart are pairwise distinct, the cart loses
exactly one line when some line has that `CartID` and is unchanged when none has; and when no
`CartID` involved is `NaN` or `-0`, `!==` is plain inequality of values.  (2) When the user
declines, or the request does not resolve with status "success" (another status, no data,
or a rejection), the cart lines are unchanged. -/
theorem delete_line (h : Host) (net : Net) (confirm : String → Bool) (cartID : JSVal)
    (w : World) :
    (confirm "⚠️ Are you sure you want to remove this item?" = true →
      ∀ d, deleteOutcome h net cartID w = HttpOutcome.resolved (some d) →
      d.status = JSVal.str "success" →
        (handleDelete h net confirm cartID w).2.cartItems =
          w.cartItems.filter (fun item => !(JSVal.strictEq item.CartID cartID)) ∧
        List.Sublist (handleDelete h net confirm cartID w).2.cartItems w.cartItems ∧
        (∀ item, item ∈ (handleDelete h net confirm cartID w).2.cartItems ↔
          item ∈ w.cartItems ∧ JSVal.strictEq item.CartID cartID = false) ∧
        (w.cartItems.Pairwise (fun a b => JSVal.strictEq a.CartID b.CartID = false) →
          ((∃ item ∈ w.cartItems, JSVal.strictEq item.CartID cartID = true) →
            (handleDelete h net confirm cartID w).2.cartItems.length + 1 =
              w.cartItems.length) ∧
          ((∀ item ∈ w.cartItems, JSVal.strictEq item.CartID cartID = false) →
            (handleDelete h net confirm cartID w).2.cartItems = w.cartItems)) ∧
        (cartID.ordinary = true → (∀ item ∈ w.cartItems, item.CartID.ordinary = true) →
          (handleDelete h net confirm cartID w).2.cartItems =
            w.cartItems.filter (fun item => decide (item.CartID ≠ cartID)))) ∧
    ((confirm "⚠️ Are you sure you want to remove this item?" = false ∨
        ∀ d, deleteOutcome h net cartID w = HttpOutcome.resolved (some d) →
          d.status ≠ JSVal.str "success") →
      (handleDelete h net confirm cartID w).2.cartItems = w.cartItems) := by
  constructor
  · intro hyes d ho hs
    rw [handleDelete_success h net confirm cartID w d hyes ho hs]
    refine ⟨rfl, List.filter_sublist _, ?_, ?_, ?_⟩
    · intro item
      simp [List.mem_filter]
    · intro huniq
      exact filter_of_unique cartID w.cartItems huniq
    · intro hc hall
      apply List.filter_congr
      intro item hitem
      have hiff := strictEq_ordinary item.CartID cartID (hall item hitem) hc
      by_cases heq : item.CartID = cartID
      · rw [hiff.mpr heq]
        simp [heq]
      · have : JSVal.strictEq item.CartID cartID = false := by
          cases hse : JSVal.strictEq item.CartID cartID
          · rfl
          · exact absurd (hiff.mp hse) heq
        rw [this]
        simp [heq]
  · intro hcase
    cases hc : confirm "⚠️ Are you sure you want to remove this item?"
    · rw [handleDelete_declined h net confirm cartID w hc]
    · have hfail : ∀ d, deleteOutcome h net cartID w = HttpOutcome.resolved (some d) →
          d.status ≠ JSVal.str "success" := by
        rcases hcase with hno | hf
        · rw [hc] at hno; cases hno
        · exact hf
      rcases ho : deleteOutcome h net cartID w with (_ | d) | e
      · rw [handleDelete_null h net confirm cartID w hc ho]
      · rw [handleDelete_refused h net confirm cartID w d hc ho (hfail d ho)]
      · rw [handleDelete_rejected h net confirm cartID w e hc ho]

theorem delete_line_witness :
    (handleDelete demoHost
        (demoNet (HttpOutcome.rejected (JSError.transport "Network Error"))
          (HttpOutcome.resolved (some (demoData "success" 0))))
        (fun _ => true) (JSVal.num (JSNumber.ofNat 1)) (demoWorld demoCart)).2.cartItems =
      [demoItem 2 "50.00" (JSVal.num (JSNumber.ofNat 7)) 1] := by
  have key := ((delete_line demoHost
      (demoNet (HttpOutcome.rejected (JSError.transport "Network Error"))
        (HttpOutcome.resolved (some (demoData "success" 0))))
      (fun _ => true) (JSVal.num (JSNumber.ofNat 1)) (demoWorld demoCart)).1 rfl
      (demoData "success" 0) rfl rfl).1
  rw [key]
  decide!

end Cart
